import Mathlib

/-!
Verification development for the Daly CAN BMS driver
(`etc/dbus-serialbattery/bms/daly_can.py`).

The Python module is shallowly embedded: byte payloads are `List Nat`
(each entry one byte), `struct.unpack_from` is modelled by a small
interpreter over the format characters actually used by the module,
floats are modelled by exact rationals, and the mutable `Battery`
object is threaded explicitly as a `DalyState`.  A decoder either
returns a boolean (Python `return True/False`), or raises
(`struct.error` on malformed frames, `IndexError` on out-of-range list
writes); the raised case carries the state as mutated so far, exactly
as the Python object would be left.  The CAN transport is modelled as
a queue of received frames: `read_bus_data_daly` concatenates the data
of the first `expectedMessageCount` frames (the Python loop blocks
forever when fewer frames arrive, modelled as the `blocked` outcome).
-/

/-! ## Byte-level decoding primitives (struct module semantics) -/

/-- Byte `i` of a payload (payloads are byte lists; reads are only
performed under the `calcsize` bounds check, as in `unpack_from`). -/
def byteAt (data : List Nat) (i : Nat) : Nat := data.getD i 0

/-- Signed 8-bit value of a byte (format character `b`). -/
def i8val (b : Nat) : Int := if b < 128 then (b : Int) else (b : Int) - 256

/-- Big-endian unsigned 16-bit field at offset `i` (format character `H`). -/
def u16be (data : List Nat) (i : Nat) : Int := (byteAt data i : Int) * 256 + (byteAt data (i + 1) : Int)

/-- Big-endian signed 16-bit field at offset `i` (format character `h`). -/
def i16be (data : List Nat) (i : Nat) : Int :=
  let u := byteAt data i * 256 + byteAt data (i + 1)
  if u < 32768 then (u : Int) else (u : Int) - 65536

/-- Big-endian unsigned 32-bit field at offset `i` (format character `L`). -/
def u32be (data : List Nat) (i : Nat) : Int :=
  (byteAt data i : Int) * 16777216 + (byteAt data (i + 1) : Int) * 65536 +
    (byteAt data (i + 2) : Int) * 256 + (byteAt data (i + 3) : Int)

/-- Bitwise AND of the low `k` bits of two naturals, by structural
recursion (kernel-reducible, unlike `Nat.land`). -/
def natAndBits : Nat → Nat → Nat → Nat
  | 0, _, _ => 0
  | k + 1, a, b => (a % 2) * (b % 2) + 2 * natAndBits k (a / 2) (b / 2)

/-- Python's `v & m != 0` for a signed-byte value `v` (−256 < v < 256) and a
mask `m < 256`: two's-complement AND only involves the low 8 bits, which for
such `v` are the bits of `v mod 256`. -/
def pyAndMask (v : Int) (m : Nat) : Bool := natAndBits 8 ((v % 256).toNat) m ≠ 0

/-- Bit `i` of a natural number, by plain arithmetic (used to state the
alarm-mapping claim the way the spec phrases it, "bit i set"). -/
def nthBit (n i : Nat) : Bool := n / 2 ^ i % 2 = 1

/-! ## `struct.unpack_from` -/

/-- A value produced by `struct.unpack_from`: Python ints and bools. -/
inductive PyVal
  | i : Int → PyVal
  | b : Bool → PyVal
deriving DecidableEq, Repr

/-- Standard-size (`>` byte order) width of one format character; `none` for
a character that is not a struct format character (Python raises
`struct.error: bad char in struct format`). -/
def fmtItemSize : Char → Option Nat
  | 'x' => some 1
  | 'c' => some 1
  | 'b' => some 1
  | 'B' => some 1
  | '?' => some 1
  | 's' => some 1
  | 'p' => some 1
  | 'h' => some 2
  | 'H' => some 2
  | 'e' => some 2
  | 'i' => some 4
  | 'I' => some 4
  | 'l' => some 4
  | 'L' => some 4
  | 'f' => some 4
  | 'q' => some 8
  | 'Q' => some 8
  | 'd' => some 8
  | _ => none

/-- `struct.calcsize` for a big-endian format (the leading `>` is dropped);
`none` when the format contains an invalid character. -/
def pyCalcsize : List Char → Option Nat
  | [] => some 0
  | c :: rest =>
    match fmtItemSize c, pyCalcsize rest with
    | some n, some m => some (n + m)
    | _, _ => none

/-- Read the values of a format from a payload; only called under the
`pyCalcsize` bounds check of `pyUnpackFrom`.  The final catch-all is
unreachable there (`pyCalcsize` rejects any other character first). -/
def pyReadVals : List Char → List Nat → Nat → List PyVal
  | [], _, _ => []
  | 'x' :: rest, d, off => pyReadVals rest d (off + 1)
  | 'b' :: rest, d, off => .i (i8val (byteAt d off)) :: pyReadVals rest d (off + 1)
  | 'B' :: rest, d, off => .i (byteAt d off : Int) :: pyReadVals rest d (off + 1)
  | '?' :: rest, d, off => .b (byteAt d off ≠ 0) :: pyReadVals rest d (off + 1)
  | 'h' :: rest, d, off => .i (i16be d off) :: pyReadVals rest d (off + 2)
  | 'H' :: rest, d, off => .i (u16be d off) :: pyReadVals rest d (off + 2)
  | 'L' :: rest, d, off => .i (u32be d off) :: pyReadVals rest d (off + 4)
  | _ :: rest, d, off => pyReadVals rest d off

/-- `struct.unpack_from(fmt, data, off)`: compile the format (rejecting bad
characters), check the buffer holds `calcsize` bytes past `off`, then read.
`none` models the raised `struct.error`. -/
def pyUnpackFrom (fmt : List Char) (data : List Nat) (off : Nat) : Option (List PyVal) :=
  match pyCalcsize fmt with
  | none => none
  | some sz => if off + sz ≤ data.length then some (pyReadVals fmt data off) else none

/-- Format `">bb??bhx"` of `read_status_data`. -/
def fmtStatus : List Char := ['b', 'b', '?', '?', 'b', 'h', 'x']

/-- Format `">hhhh"` of `read_soc_data`. -/
def fmtSoc : List Char := ['h', 'h', 'h', 'h']

/-- Format `">bbbbbbbb"` of `read_alarm_data`. -/
def fmtAlarm : List Char := ['b', 'b', 'b', 'b', 'b', 'b', 'b', 'b']

/-- Format `">Bhhh"` of `read_cells_volts`. -/
def fmtCellVolts : List Char := ['B', 'h', 'h', 'h']

/-- Format `">hbhb"` of `read_cell_voltage_range_data`. -/
def fmtMinMaxVolts : List Char := ['h', 'b', 'h', 'b']

/-- Format `">bbbb"` of `read_temperature_range_data`. -/
def fmtMinMaxTemp : List Char := ['b', 'b', 'b', 'b']

/-- Format `">b??BL"` of `read_fed_data`. -/
def fmtFet : List Char := ['b', '?', '?', 'B', 'L']

/-- Format `">BB??BHX"` of the cached-status decode in `read_daly_can`
(note the final `X`, which is not a struct format character). -/
def fmtStatusCached : List Char := ['B', 'B', '?', '?', 'B', 'H', 'X']

/-! ## Data model -/

/-- Configuration constants imported from `utils` plus the device address
resolved in `__init__`. -/
structure Config where
  INVERT_CURRENT_MEASUREMENT : ℚ
  MAX_BATTERY_CHARGE_CURRENT : ℚ
  MAX_BATTERY_DISCHARGE_CURRENT : ℚ
  MIN_CELL_VOLTAGE : ℚ
  device_address : Nat
deriving DecidableEq, Repr

/-- The tri-state protection conditions set by `read_alarm_data`
(`None` before the first alarm decode). -/
structure Protection where
  high_voltage : Option Nat
  low_voltage : Option Nat
  high_charge_temp : Option Nat
  low_charge_temp : Option Nat
  high_temperature : Option Nat
  low_temperature : Option Nat
  high_charge_current : Option Nat
  low_soc : Option Nat
deriving DecidableEq, Repr

/-- The mutable fields of the `Daly_Can` battery object that the decoders
touch.  Scalar telemetry uses exact rationals for Python floats; a cell
voltage is `none` when recorded as unknown. -/
structure DalyState where
  voltage : Option ℚ
  current : Option ℚ
  soc : Option ℚ
  cell_count : Option Int
  temp_sensors : Option Int
  charger_connected : Option Bool
  load_connected : Option Bool
  charge_cycles : Option Int
  hardware_version : Option String
  charge_fet : Option Bool
  discharge_fet : Option Bool
  capacity_remain : Option ℚ
  cell_max_voltage : Option ℚ
  cell_min_voltage : Option ℚ
  cell_max_no : Option Int
  cell_min_no : Option Int
  temp1 : Option Int
  temp2 : Option Int
  cells : List (Option ℚ)
  protection : Protection
  poll_step : Int
  error_active : Bool
  last_error_time : ℚ
deriving DecidableEq, Repr

/-- The state right after `__init__` (unset fields are `None`/empty,
`poll_step = 0`, `error_active = False`, `last_error_time = 0`). -/
def initState : DalyState where
  voltage := none
  current := none
  soc := none
  cell_count := none
  temp_sensors := none
  charger_connected := none
  load_connected := none
  charge_cycles := none
  hardware_version := none
  charge_fet := none
  discharge_fet := none
  capacity_remain := none
  cell_max_voltage := none
  cell_min_voltage := none
  cell_max_no := none
  cell_min_no := none
  temp1 := none
  temp2 := none
  cells := []
  protection :=
    { high_voltage := none, low_voltage := none, high_charge_temp := none,
      low_charge_temp := none, high_temperature := none, low_temperature := none,
      high_charge_current := none, low_soc := none }
  poll_step := 0
  error_active := false
  last_error_time := 0

/-- A Python exception escaping a decoder: `struct.error` on malformed
frames, `IndexError` on a cell write out of range, and the modelled
"blocks forever on the bus iterator" case. -/
inductive DalyErr
  | structError
  | indexError
  | blocked
deriving DecidableEq, Repr

/-- Which `read_*` method ran (ghost trace used to state the polling
claims; it does not influence any computed value). -/
inductive ReadKind
  | status
  | soc
  | fet
  | alarm
  | cellRange
  | cellsVolts
  | tempRange
deriving DecidableEq, Repr

/-- The CAN receive queue: data bytes of the frames the bus will deliver,
in arrival order. -/
abbrev Bus := List (List Nat)

/-- Outcome of one decoder call: the returned boolean or the escaped
exception, together with the battery state as left behind (mutations
before an exception persist), the rest of the receive queue, and the
ghost trace of decoders that ran. -/
structure PyResult where
  result : Except DalyErr Bool
  state : DalyState
  bus : Bus
  trace : List ReadKind

instance : DecidableEq (Except DalyErr Bool)
  | .error a, .error b =>
    if h : a = b then .isTrue (by rw [h]) else .isFalse (fun hh => by cases hh; exact h rfl)
  | .error _, .ok _ => .isFalse (fun hh => by cases hh)
  | .ok _, .error _ => .isFalse (fun hh => by cases hh)
  | .ok a, .ok b =>
    if h : a = b then .isTrue (by rw [h]) else .isFalse (fun hh => by cases hh; exact h rfl)

/-- `CURRENT_ZERO_CONSTANT = 30000`. -/
def CURRENT_ZERO_CONSTANT : ℚ := 30000

/-- `TEMP_ZERO_CONSTANT = 40`. -/
def TEMP_ZERO_CONSTANT : Int := 40

/-- `CAN_FRAMES[COMMAND_STATUS] = [0x18940140]`. -/
def CAN_FRAMES_COMMAND_STATUS : List Nat := [0x18940140]

/-! ## Bus transceiver and decoders -/

/-- `read_bus_data_daly`: send the command, then concatenate the data of
the next `expectedMessageCount` frames from the bus iterator.  With fewer
frames available the Python `for msg in can_bus` loop never terminates
(the source comments call this out); that case is `none`.  The dead
`if ... is False` checks in the callers can never fire, since this
function always returns a bytearray. -/
def read_bus_data_daly (bus : Bus) (expectedMessageCount : Nat) : Option (List Nat × Bus) :=
  if expectedMessageCount ≤ bus.length then
    some ((bus.take expectedMessageCount).flatten, bus.drop expectedMessageCount)
  else none

/-- `read_status_data`: decode `">bb??bhx"`, assign the fields, fail on
`cell_count == 0` (note the fields are already assigned by then), else set
`hardware_version` and succeed. -/
def read_status_data (_cfg : Config) (st : DalyState) (bus : Bus) : PyResult :=
  match read_bus_data_daly bus 1 with
  | none => ⟨.error .blocked, st, bus, [.status]⟩
  | some (status_data, bus1) =>
    match pyUnpackFrom fmtStatus status_data 0 with
    | none => ⟨.error .structError, st, bus1, [.status]⟩
    | some [.i cc, .i ts, .b chg, .b ld, .i _state, .i cycles] =>
      let st1 := { st with
        cell_count := some cc
        temp_sensors := some ts
        charger_connected := some chg
        load_connected := some ld
        charge_cycles := some cycles }
      if cc = 0 then ⟨.ok false, st1, bus1, [.status]⟩
      else
        ⟨.ok true,
         { st1 with hardware_version := some ("DalyBMS " ++ toString cc ++ "S") },
         bus1, [.status]⟩
    | some _ => ⟨.error .structError, st, bus1, [.status]⟩

/-- The body of `read_soc_data`'s `while triesValid > 0` loop, recursing on
the remaining tries.  One attempt reads a frame, decodes `">hhhh"`, and
either stores voltage/current/soc (current within the plausibility window)
or retries. -/
def read_soc_attempts (cfg : Config) : DalyState → Bus → Nat → Except DalyErr Bool × DalyState × Bus
  | st, bus, 0 => (.ok false, st, bus)
  | st, bus, triesValid + 1 =>
    match read_bus_data_daly bus 1 with
    | none => (.error .blocked, st, bus)
    | some (soc_data, bus1) =>
      match pyUnpackFrom fmtSoc soc_data 0 with
      | none => (.error .structError, st, bus1)
      | some [.i voltage, .i _tmp, .i current0, .i soc] =>
        let current : ℚ :=
          ((current0 : ℚ) - CURRENT_ZERO_CONSTANT) / (-10) * cfg.INVERT_CURRENT_MEASUREMENT
        let crntMinValid : ℚ := -(cfg.MAX_BATTERY_DISCHARGE_CURRENT * 2.1)
        let crntMaxValid : ℚ := cfg.MAX_BATTERY_CHARGE_CURRENT * 1.3
        if crntMinValid < current ∧ current < crntMaxValid then
          (.ok true,
           { st with voltage := some ((voltage : ℚ) / 10), current := some current,
                     soc := some ((soc : ℚ) / 10) },
           bus1)
        else read_soc_attempts cfg st bus1 triesValid
      | some _ => (.error .structError, st, bus1)

/-- `read_soc_data`, with `triesValid = 2`. -/
def read_soc_data (cfg : Config) (st : DalyState) (bus : Bus) : PyResult :=
  let r := read_soc_attempts cfg st bus 2
  ⟨r.1, r.2.1, r.2.2, [.soc]⟩

/-- The if/elif cascade of `read_alarm_data`, mapping the three used
bitfields to the tri-state protection conditions, alarm bits checked
before pre-alarm bits (the masks are the literal ones of the source:
48/15, 128/64, 2/1, 8/4, 32/16, 128/64, (2 or 8)/(1 or 4), 128/64). -/
def alarmProtection (al_volt al_temp al_crnt_soc : Int) (p0 : Protection) : Protection :=
  let p := p0
  let p := { p with high_voltage := some (if pyAndMask al_volt 48 then 2 else if pyAndMask al_volt 15 then 1 else 0) }
  let p := { p with low_voltage := some (if pyAndMask al_volt 128 then 2 else if pyAndMask al_volt 64 then 1 else 0) }
  let p := { p with high_charge_temp := some (if pyAndMask al_temp 2 then 2 else if pyAndMask al_temp 1 then 1 else 0) }
  let p := { p with low_charge_temp := some (if pyAndMask al_temp 8 then 2 else if pyAndMask al_temp 4 then 1 else 0) }
  let p := { p with high_temperature := some (if pyAndMask al_temp 32 then 2 else if pyAndMask al_temp 16 then 1 else 0) }
  let p := { p with low_temperature := some (if pyAndMask al_temp 128 then 2 else if pyAndMask al_temp 64 then 1 else 0) }
  let p := { p with high_charge_current := some (if pyAndMask al_crnt_soc 2 ∨ pyAndMask al_crnt_soc 8 then 2 else if pyAndMask al_crnt_soc 1 ∨ pyAndMask al_crnt_soc 4 then 1 else 0) }
  let p := { p with low_soc := some (if pyAndMask al_crnt_soc 128 then 2 else if pyAndMask al_crnt_soc 64 then 1 else 0) }
  p

/-- `read_alarm_data`: decode `">bbbbbbbb"` and map the bitfields through
`alarmProtection` (the unused diff/mos/misc/fault bytes are ignored, as in
the source). -/
def read_alarm_data (_cfg : Config) (st : DalyState) (bus : Bus) : PyResult :=
  match read_bus_data_daly bus 1 with
  | none => ⟨.error .blocked, st, bus, [.alarm]⟩
  | some (alarm_data, bus1) =>
    match pyUnpackFrom fmtAlarm alarm_data 0 with
    | none => ⟨.error .structError, st, bus1, [.alarm]⟩
    | some [.i al_volt, .i al_temp, .i al_crnt_soc, .i _al_diff,
            .i _al_mos, .i _al_misc1, .i _al_misc2, .i _al_fault] =>
      ⟨.ok true, { st with protection := alarmProtection al_volt al_temp al_crnt_soc st.protection },
       bus1, [.alarm]⟩
    | some _ => ⟨.error .structError, st, bus1, [.alarm]⟩

/-- `None if cellVoltage < lowMin else cellVoltage` for a decoded mV value. -/
def transformCellVoltage (lowMin : ℚ) (c : Int) : Option ℚ :=
  let cellVoltage : ℚ := (c : ℚ) / 1000
  if cellVoltage < lowMin then none else some cellVoltage

/-- `self.cells[i].voltage = v` with Python list-index semantics: a
negative index within `-len ≤ i < 0` wraps to the end, anything further
out raises `IndexError`. -/
def pySetCell (cells : List (Option ℚ)) (i : Int) (v : Option ℚ) :
    Except DalyErr (List (Option ℚ)) :=
  if 0 ≤ i ∧ i < (cells.length : Int) then .ok (cells.set i.toNat v)
  else if -(cells.length : Int) ≤ i ∧ i < 0 then .ok (cells.set (i + cells.length).toNat v)
  else .error .indexError

/-- The `for idx in range(3)` body of `read_cells_volts`: write the three
cells of one frame, breaking at the first `cellnum ≥ cell_count`; an
`IndexError` keeps the writes made so far. -/
def writeFrame (cc : Int) (lowMin : ℚ) (frame c0 c1 c2 : Int) (cells : List (Option ℚ)) :
    Except DalyErr Unit × List (Option ℚ) :=
  if (frame - 1) * 3 ≥ cc then (.ok (), cells)
  else
    match pySetCell cells ((frame - 1) * 3) (transformCellVoltage lowMin c0) with
    | .error e => (.error e, cells)
    | .ok cells1 =>
      if (frame - 1) * 3 + 1 ≥ cc then (.ok (), cells1)
      else
        match pySetCell cells1 ((frame - 1) * 3 + 1) (transformCellVoltage lowMin c1) with
        | .error e => (.error e, cells1)
        | .ok cells2 =>
          if (frame - 1) * 3 + 2 ≥ cc then (.ok (), cells2)
          else
            match pySetCell cells2 ((frame - 1) * 3 + 2) (transformCellVoltage lowMin c2) with
            | .error e => (.error e, cells2)
            | .ok cells3 => (.ok (), cells3)

/-- The `while bufIdx < len(cells_volts_data)` loop of `read_cells_volts`,
advancing 8 bytes per frame: decode `">Bhhh"` at the current offset
(modelled by recursing on the remaining suffix) and write the frame's
three cells. -/
def cellsLoop (cc : Int) (lowMin : ℚ) (data : List Nat) (cells : List (Option ℚ)) :
    Except DalyErr Unit × List (Option ℚ) :=
  if _h : data = [] then (.ok (), cells)
  else
    match pyUnpackFrom fmtCellVolts data 0 with
    | none => (.error .structError, cells)
    | some [.i frame, .i c0, .i c1, .i c2] =>
      match writeFrame cc lowMin frame c0 c1 c2 cells with
      | (.error e, cells1) => (.error e, cells1)
      | (.ok _, cells1) => cellsLoop cc lowMin (data.drop 8) cells1
    | some _ => (.error .structError, cells)
  termination_by data.length
  decreasing_by
    simp only [List.length_drop]
    have : data.length ≠ 0 := fun hz => _h (List.eq_nil_of_length_eq_zero hz)
    omega

/-- `read_cells_volts`: with `cell_count` unknown the whole body is
skipped and the trailing `return True` runs; otherwise read 6 frames,
re-initialize `self.cells` when its length differs from `cell_count`
(fresh `Cell` objects carry no voltage yet), and run the frame loop. -/
def read_cells_volts (cfg : Config) (st : DalyState) (bus : Bus) : PyResult :=
  match st.cell_count with
  | none => ⟨.ok true, st, bus, [.cellsVolts]⟩
  | some cc =>
    match read_bus_data_daly bus 6 with
    | none => ⟨.error .blocked, st, bus, [.cellsVolts]⟩
    | some (cells_volts_data, bus1) =>
      let lowMin := cfg.MIN_CELL_VOLTAGE / 2
      let cells0 := if (st.cells.length : Int) ≠ cc then List.replicate cc.toNat none else st.cells
      match cellsLoop cc lowMin cells_volts_data cells0 with
      | (.error e, cells1) => ⟨.error e, { st with cells := cells1 }, bus1, [.cellsVolts]⟩
      | (.ok _, cells1) => ⟨.ok true, { st with cells := cells1 }, bus1, [.cellsVolts]⟩

/-- `read_cell_voltage_range_data`: decode `">hbhb"`, converting the
1-based extreme-cell numbers to 0-based and mV to V. -/
def read_cell_voltage_range_data (_cfg : Config) (st : DalyState) (bus : Bus) : PyResult :=
  match read_bus_data_daly bus 1 with
  | none => ⟨.error .blocked, st, bus, [.cellRange]⟩
  | some (minmax_data, bus1) =>
    match pyUnpackFrom fmtMinMaxVolts minmax_data 0 with
    | none => ⟨.error .structError, st, bus1, [.cellRange]⟩
    | some [.i cell_max_voltage, .i cell_max_no, .i cell_min_voltage, .i cell_min_no] =>
      ⟨.ok true,
       { st with cell_max_no := some (cell_max_no - 1), cell_min_no := some (cell_min_no - 1),
                 cell_max_voltage := some ((cell_max_voltage : ℚ) / 1000),
                 cell_min_voltage := some ((cell_min_voltage : ℚ) / 1000) },
       bus1, [.cellRange]⟩
    | some _ => ⟨.error .structError, st, bus1, [.cellRange]⟩

/-- `read_temperature_range_data`: decode `">bbbb"` and store the two
extremes with the −40 offset (the sensor indices are ignored). -/
def read_temperature_range_data (_cfg : Config) (st : DalyState) (bus : Bus) : PyResult :=
  match read_bus_data_daly bus 1 with
  | none => ⟨.error .blocked, st, bus, [.tempRange]⟩
  | some (minmax_data, bus1) =>
    match pyUnpackFrom fmtMinMaxTemp minmax_data 0 with
    | none => ⟨.error .structError, st, bus1, [.tempRange]⟩
    | some [.i max_temp, .i _max_no, .i min_temp, .i _min_no] =>
      ⟨.ok true,
       { st with temp1 := some (min_temp - TEMP_ZERO_CONSTANT),
                 temp2 := some (max_temp - TEMP_ZERO_CONSTANT) },
       bus1, [.tempRange]⟩
    | some _ => ⟨.error .structError, st, bus1, [.tempRange]⟩

/-- `read_fed_data` (sic): decode `">b??BL"` and store the FET flags and
the remaining capacity in Ah. -/
def read_fed_data (_cfg : Config) (st : DalyState) (bus : Bus) : PyResult :=
  match read_bus_data_daly bus 1 with
  | none => ⟨.error .blocked, st, bus, [.fet]⟩
  | some (fed_data, bus1) =>
    match pyUnpackFrom fmtFet fed_data 0 with
    | none => ⟨.error .structError, st, bus1, [.fet]⟩
    | some [.i _status, .b charge_fet, .b discharge_fet, .i _bms_cycles, .i capacity_remain] =>
      ⟨.ok true,
       { st with charge_fet := some charge_fet, discharge_fet := some discharge_fet,
                 capacity_remain := some ((capacity_remain : ℚ) / 1000) },
       bus1, [.fet]⟩
    | some _ => ⟨.error .structError, st, bus1, [.fet]⟩

/-! ## Polling cycle -/

/-- Python's short-circuit `result = result and self.f(...)`: `f` runs only
when the accumulated result is `True`; an escaped exception passes through. -/
def pyAndThen (r : PyResult) (f : DalyState → Bus → PyResult) : PyResult :=
  match r.result with
  | .error _ => r
  | .ok false => r
  | .ok true =>
    let r2 := f r.state r.bus
    { r2 with trace := r.trace ++ r2.trace }

/-- The trailing `self.poll_step += 1` of `refresh_data`, which runs only
when no exception escaped. -/
def bumpPollStep (r : PyResult) : PyResult :=
  match r.result with
  | .error _ => r
  | .ok _ => { r with state := { r.state with poll_step := r.state.poll_step + 1 } }

/-- The `if self.poll_step == 0 ... elif ... == 3` dispatch of
`refresh_data` together with the trailing `poll_step += 1`: run the
optional read of the current step (short-circuit on an already-failed
result), resetting `poll_step` to −1 in step 3 before the increment.  An
escaped exception skips the increment. -/
def refreshStep (cfg : Config) (r2 : PyResult) : PyResult :=
  if r2.state.poll_step = 0 then bumpPollStep (pyAndThen r2 (read_cell_voltage_range_data cfg))
  else if r2.state.poll_step = 1 then bumpPollStep (pyAndThen r2 (read_alarm_data cfg))
  else if r2.state.poll_step = 2 then bumpPollStep (pyAndThen r2 (read_cells_volts cfg))
  else if r2.state.poll_step = 3 then
    let r3 := pyAndThen r2 (read_temperature_range_data cfg)
    match r3.result with
    | .error _ => r3
    | .ok _ => { r3 with state := { r3.state with poll_step := -1 + 1 } }
  else bumpPollStep r2

/-- `refresh_data`: SOC read, then (short-circuit) FET read, then the
round-robin optional read chosen by `poll_step`.  An escaped exception
leaves `poll_step` untouched. -/
def refresh_data (cfg : Config) (st : DalyState) (bus : Bus) : PyResult :=
  let r1 := read_soc_data cfg st bus
  let r2 := pyAndThen r1 (read_fed_data cfg)
  match r2.result with
  | .error _ => r2
  | .ok _ => refreshStep cfg r2

/-! ## Cache-pull path (`read_daly_can`) -/

/-- The `for frame_id, data in self.can_message_cache_callback().items()`
loop of `read_daly_can`, threading the state and the `data_check`
counter; a `struct.error` escapes with the state mutated so far. -/
def read_daly_can_loop (cfg : Config) :
    List (Nat × List Nat) → DalyState → Int → Except DalyErr Unit × DalyState × Int
  | [], st, data_check => (.ok (), st, data_check)
  | (frame_id, data) :: rest, st, data_check =>
    if frame_id + cfg.device_address ∈ CAN_FRAMES_COMMAND_STATUS then
      match pyUnpackFrom fmtStatusCached data 0 with
      | none => (.error .structError, st, data_check)
      | some [.i cc, .i ts, .b chg, .b ld, .i _state, .i cycles] =>
        let st1 := { st with
          cell_count := some cc
          temp_sensors := some ts
          charger_connected := some chg
          load_connected := some ld
          charge_cycles := some cycles }
        let data_check1 := if cc ≠ 0 then data_check + 1 else data_check
        let st2 := { st1 with hardware_version := some ("Daly CAN " ++ toString cc ++ "S") }
        read_daly_can_loop cfg rest st2 data_check1
      | some _ => (.error .structError, st, data_check)
    else read_daly_can_loop cfg rest st data_check

/-- `read_daly_can`: clear the error latch when more than 120 s have
elapsed, then pull the cached status frame(s); fail when no valid status
frame was seen.  `now` is the value of `time()`. -/
def read_daly_can (cfg : Config) (now : ℚ) (cache : List (Nat × List Nat)) (st : DalyState) :
    Except DalyErr Bool × DalyState :=
  let st0 := if now - st.last_error_time > 120 ∧ st.error_active = true then
               { st with error_active := false } else st
  match read_daly_can_loop cfg cache st0 0 with
  | (.error e, st1, _) => (.error e, st1)
  | (.ok _, st1, data_check) =>
    if data_check = 0 then (.ok false, st1) else (.ok true, st1)

/-! ## Derived views used to state the claims -/

/-- Raw 16-bit voltage field of a SOC payload (offset 0 of `">hhhh"`). -/
def rawVoltage (p : List Nat) : Int := i16be p 0

/-- Raw 16-bit current field of a SOC payload (offset 4 of `">hhhh"`). -/
def rawCurrent (p : List Nat) : Int := i16be p 4

/-- Raw 16-bit SOC field of a SOC payload (offset 6 of `">hhhh"`). -/
def rawSoc (p : List Nat) : Int := i16be p 6

/-- The physical current a SOC payload decodes to:
`(raw − 30000) / −10`, multiplied by the configured inversion factor. -/
def physCurrent (cfg : Config) (p : List Nat) : ℚ :=
  ((rawCurrent p : ℚ) - CURRENT_ZERO_CONSTANT) / (-10) * cfg.INVERT_CURRENT_MEASUREMENT

/-- The reads of the round-robin optional step (everything except the
unconditional SOC/FET pair and the status read). -/
def isOptionalRead : ReadKind → Bool
  | .cellRange => true
  | .alarm => true
  | .cellsVolts => true
  | .tempRange => true
  | _ => false

/-- The ghost trace the optional step of one completed cycle leaves
behind, by poll step. -/
def optTrace (s : Int) : List ReadKind :=
  if s = 0 then [.cellRange]
  else if s = 1 then [.alarm]
  else if s = 2 then [.cellsVolts]
  else if s = 3 then [.tempRange]
  else []

/-- The 8-byte-stride frames of a cell-voltage buffer, decoded as the
loop of `read_cells_volts` decodes them: `[frame_index, v1, v2, v3]`
big-endian, 8th byte of each stride unused. -/
def cellFrames (data : List Nat) : List (Int × Int × Int × Int) :=
  if _h : data = [] then []
  else ((byteAt data 0 : Int), i16be data 1, i16be data 3, i16be data 5) :: cellFrames (data.drop 8)
  termination_by data.length
  decreasing_by
    simp only [List.length_drop]
    have : data.length ≠ 0 := fun hz => _h (List.eq_nil_of_length_eq_zero hz)
    omega

/-- Declarative reading of the claim for one frame: the value the frame
`(f, v1, v2, v3)` writes at cell position `j` — the voltage for offset
`j − (f−1)·3 ∈ {0,1,2}` (below-plausibility voltages as unknown) when
`j < cell_count`, nothing otherwise. -/
def frameWrites (cc : Int) (lowMin : ℚ) (fr : Int × Int × Int × Int) (j : Nat) :
    Option (Option ℚ) :=
  if (j : Int) = (fr.1 - 1) * 3 ∧ (j : Int) < cc then some (transformCellVoltage lowMin fr.2.1)
  else if (j : Int) = (fr.1 - 1) * 3 + 1 ∧ (j : Int) < cc then
    some (transformCellVoltage lowMin fr.2.2.1)
  else if (j : Int) = (fr.1 - 1) * 3 + 2 ∧ (j : Int) < cc then
    some (transformCellVoltage lowMin fr.2.2.2)
  else none

/-- Declarative reading of the whole buffer: the value of cell `j` after
processing `frames` in order is the last value some frame writes there,
or the previous value if no frame covers `j`. -/
def specCellValue (cc : Int) (lowMin : ℚ) (frames : List (Int × Int × Int × Int)) (j : Nat)
    (old : Option ℚ) : Option ℚ :=
  frames.foldl (fun acc fr => (frameWrites cc lowMin fr j).getD acc) old

/-! ## Concrete inputs for witnesses and counterexamples -/

/-- A concrete configuration: no inversion, 50 A charge and discharge
limits (plausibility window (−105, 65)), 3.2 V minimum cell voltage,
unaddressed device. -/
def cfgW : Config where
  INVERT_CURRENT_MEASUREMENT := 1
  MAX_BATTERY_CHARGE_CURRENT := 50
  MAX_BATTERY_DISCHARGE_CURRENT := 50
  MIN_CELL_VOLTAGE := 16 / 5
  device_address := 0

/-- SOC payload: voltage 500 (50.0 V), current 30050 (−5.0 A), soc 1000. -/
def socGoodPayload : List Nat := [1, 244, 0, 0, 117, 98, 3, 232]

/-- SOC payload whose raw current 0 decodes to 3000 A, far outside the
plausibility window. -/
def socBadPayload : List Nat := [0, 0, 0, 0, 0, 0, 0, 0]

/-- FET payload: both FETs on, 1000 mAh remaining. -/
def fetPayload : List Nat := [0, 1, 1, 0, 0, 0, 3, 232]

/-- Min/max cell voltage payload: max 3300 mV at cell 2, min 3172 mV at cell 1. -/
def rangePayload : List Nat := [12, 228, 2, 12, 100, 1]

/-- Alarm payload with every bitfield clear. -/
def alarmZeroPayload : List Nat := [0, 0, 0, 0, 0, 0, 0, 0]

/-- Temperature-range payload: max raw 50 (10 °C), min raw 45 (5 °C). -/
def tempPayload : List Nat := [50, 1, 45, 1]

/-- Status payload: 4 cells, 2 temperature sensors, charger and load
connected, 7 charge cycles. -/
def statusPayloadW : List Nat := [4, 2, 1, 1, 0, 0, 7, 0]

/-- A state with three known cells all at 3.0 V. -/
def stThreeCells : DalyState :=
  { initState with cell_count := some 3, cells := [some 3, some 3, some 3] }

/-- A cell-voltage response of six frames whose concatenation is a single
8-byte frame with frame index 0 (followed by five empty frames). -/
def busFrameZero : Bus := [[0, 0, 0, 0, 0, 0, 0, 0], [], [], [], [], []]

/-- A receive queue on which the SOC read fails its plausibility check
twice and a valid FET frame is still pending. -/
def busC4 : Bus := [socBadPayload, socBadPayload, fetPayload]

/-- A cell-voltage response whose single real frame has index 1 and
voltages 3300 mV, 100 mV, 3300 mV (five empty frames follow). -/
def busOneFrame : Bus := [[1, 12, 228, 0, 100, 12, 228, 0], [], [], [], [], []]

/-! ## Decoding lemmas -/

theorem pyUnpackFrom_fmtSoc (p : List Nat) (h : 8 ≤ p.length) :
    pyUnpackFrom fmtSoc p 0 =
      some [.i (i16be p 0), .i (i16be p 2), .i (i16be p 4), .i (i16be p 6)] := by
  show (if 0 + 8 ≤ p.length then some (pyReadVals fmtSoc p 0) else none) = _
  rw [if_pos (by omega)]
  rfl

theorem pyUnpackFrom_fmtSoc_short (p : List Nat) (h : p.length < 8) :
    pyUnpackFrom fmtSoc p 0 = none := by
  show (if 0 + 8 ≤ p.length then some (pyReadVals fmtSoc p 0) else none) = _
  rw [if_neg (by omega)]

theorem pyUnpackFrom_fmtAlarm (p : List Nat) (h : 8 ≤ p.length) :
    pyUnpackFrom fmtAlarm p 0 =
      some [.i (i8val (byteAt p 0)), .i (i8val (byteAt p 1)), .i (i8val (byteAt p 2)),
            .i (i8val (byteAt p 3)), .i (i8val (byteAt p 4)), .i (i8val (byteAt p 5)),
            .i (i8val (byteAt p 6)), .i (i8val (byteAt p 7))] := by
  show (if 0 + 8 ≤ p.length then some (pyReadVals fmtAlarm p 0) else none) = _
  rw [if_pos (by omega)]
  rfl

theorem pyUnpackFrom_fmtCellVolts (p : List Nat) (h : 7 ≤ p.length) :
    pyUnpackFrom fmtCellVolts p 0 =
      some [.i (byteAt p 0 : Int), .i (i16be p 1), .i (i16be p 3), .i (i16be p 5)] := by
  show (if 0 + 7 ≤ p.length then some (pyReadVals fmtCellVolts p 0) else none) = _
  rw [if_pos (by omega)]
  rfl

theorem pyUnpackFrom_fmtStatusCached (p : List Nat) (off : Nat) :
    pyUnpackFrom fmtStatusCached p off = none := by
  rfl

theorem read_bus_one (p : List Nat) (rest : Bus) :
    read_bus_data_daly (p :: rest) 1 = some (p, rest) := by
  unfold read_bus_data_daly
  rw [if_pos (by simp)]
  simp

theorem read_soc_attempts_in_bounds (cfg : Config) (st : DalyState) (p : List Nat) (rest : Bus)
    (n : Nat) (h8 : 8 ≤ p.length)
    (hlo : -(cfg.MAX_BATTERY_DISCHARGE_CURRENT * 2.1) < physCurrent cfg p)
    (hhi : physCurrent cfg p < cfg.MAX_BATTERY_CHARGE_CURRENT * 1.3) :
    read_soc_attempts cfg st (p :: rest) (n + 1) =
      (.ok true,
       { st with
          voltage := some ((rawVoltage p : ℚ) / 10)
          current := some (physCurrent cfg p)
          soc := some ((rawSoc p : ℚ) / 10) },
       rest) := by
  unfold read_soc_attempts
  rw [read_bus_one]
  dsimp only
  rw [pyUnpackFrom_fmtSoc p h8]
  dsimp only
  rw [show ((i16be p 4 : ℚ) - CURRENT_ZERO_CONSTANT) / (-10) * cfg.INVERT_CURRENT_MEASUREMENT = physCurrent cfg p from rfl]
  rw [if_pos (⟨hlo, hhi⟩ : _ ∧ _)]
  rfl

theorem read_soc_attempts_out_of_bounds (cfg : Config) (st : DalyState) (p : List Nat)
    (rest : Bus) (n : Nat) (h8 : 8 ≤ p.length)
    (hout : ¬(-(cfg.MAX_BATTERY_DISCHARGE_CURRENT * 2.1) < physCurrent cfg p ∧
              physCurrent cfg p < cfg.MAX_BATTERY_CHARGE_CURRENT * 1.3)) :
    read_soc_attempts cfg st (p :: rest) (n + 1) = read_soc_attempts cfg st rest n := by
  conv_lhs => unfold read_soc_attempts
  rw [read_bus_one]
  dsimp only
  rw [pyUnpackFrom_fmtSoc p h8]
  dsimp only
  rw [show ((i16be p 4 : ℚ) - CURRENT_ZERO_CONSTANT) / (-10) * cfg.INVERT_CURRENT_MEASUREMENT = physCurrent cfg p from rfl]
  rw [if_neg hout]

/-- C1: for every SOC payload of at least 8 bytes whose decoded physical
current lies strictly between −(MAX_BATTERY_DISCHARGE_CURRENT × 2.1) and
MAX_BATTERY_CHARGE_CURRENT × 1.3, `read_soc_data` returns True and sets
`voltage` to raw_voltage/10, `current` to (raw_current − 30000)/−10 times
the configured inversion factor, and `soc` to raw_soc/10. -/
theorem C1_read_soc_data_in_bounds (cfg : Config) (st : DalyState) (p : List Nat) (rest : Bus)
    (h8 : 8 ≤ p.length)
    (hlo : -(cfg.MAX_BATTERY_DISCHARGE_CURRENT * 2.1) < physCurrent cfg p)
    (hhi : physCurrent cfg p < cfg.MAX_BATTERY_CHARGE_CURRENT * 1.3) :
    read_soc_data cfg st (p :: rest) =
      ⟨.ok true,
       { st with
          voltage := some ((rawVoltage p : ℚ) / 10)
          current := some (physCurrent cfg p)
          soc := some ((rawSoc p : ℚ) / 10) },
       rest, [.soc]⟩ := by
  unfold read_soc_data
  rw [show (2 : Nat) = 1 + 1 from rfl]
  rw [read_soc_attempts_in_bounds cfg st p rest 1 h8 hlo hhi]

/-- Witness for C1: a 50.0 V / −5.0 A / 100.0 % payload decodes in bounds. -/
theorem C1_witness :
    read_soc_data cfgW initState [socGoodPayload] =
      ⟨.ok true,
       { initState with voltage := some 50, current := some (-5), soc := some 100 },
       [], [.soc]⟩ := by
  have h := C1_read_soc_data_in_bounds cfgW initState socGoodPayload []
    (by norm_num [socGoodPayload])
    (by norm_num [physCurrent, rawCurrent, i16be, byteAt, List.getD, socGoodPayload, cfgW,
                  CURRENT_ZERO_CONSTANT])
    (by norm_num [physCurrent, rawCurrent, i16be, byteAt, List.getD, socGoodPayload, cfgW,
                  CURRENT_ZERO_CONSTANT])
  rw [h]
  norm_num [rawVoltage, rawCurrent, rawSoc, physCurrent, i16be, byteAt, List.getD,
            socGoodPayload, cfgW, CURRENT_ZERO_CONSTANT]

/-- C3: when both SOC payloads read during one `read_soc_data` call decode
to a physical current outside the plausibility bounds, the call performs
exactly its 2 read attempts, returns False, and leaves the state (in
particular voltage, current and soc) unchanged. -/
theorem C3_read_soc_data_out_of_bounds (cfg : Config) (st : DalyState) (p1 p2 : List Nat)
    (rest : Bus) (h1 : 8 ≤ p1.length) (h2 : 8 ≤ p2.length)
    (hout1 : ¬(-(cfg.MAX_BATTERY_DISCHARGE_CURRENT * 2.1) < physCurrent cfg p1 ∧
              physCurrent cfg p1 < cfg.MAX_BATTERY_CHARGE_CURRENT * 1.3))
    (hout2 : ¬(-(cfg.MAX_BATTERY_DISCHARGE_CURRENT * 2.1) < physCurrent cfg p2 ∧
              physCurrent cfg p2 < cfg.MAX_BATTERY_CHARGE_CURRENT * 1.3)) :
    read_soc_data cfg st (p1 :: p2 :: rest) = ⟨.ok false, st, rest, [.soc]⟩ := by
  unfold read_soc_data
  rw [show (2 : Nat) = 1 + 1 from rfl]
  rw [read_soc_attempts_out_of_bounds cfg st p1 (p2 :: rest) 1 h1 hout1]
  rw [show (1 : Nat) = 0 + 1 from rfl]
  rw [read_soc_attempts_out_of_bounds cfg st p2 rest 0 h2 hout2]
  rfl

/-- Witness for C3: two implausible payloads (3000 A) leave the state
untouched and yield False. -/
theorem C3_witness :
    read_soc_data cfgW stThreeCells [socBadPayload, socBadPayload] =
      ⟨.ok false, stThreeCells, [], [.soc]⟩ :=
  C3_read_soc_data_out_of_bounds cfgW stThreeCells socBadPayload socBadPayload []
    (by norm_num [socBadPayload]) (by norm_num [socBadPayload])
    (by norm_num [physCurrent, rawCurrent, i16be, byteAt, List.getD, socBadPayload, cfgW,
                  CURRENT_ZERO_CONSTANT])
    (by norm_num [physCurrent, rawCurrent, i16be, byteAt, List.getD, socBadPayload, cfgW,
                  CURRENT_ZERO_CONSTANT])

/-- C10: when `cell_count` is still unknown, `read_cells_volts` returns
True without sending any request (the receive queue is untouched) and
without modifying any field of the battery state, so poll step 2 reports
success although no per-cell data was read. -/
theorem C10_read_cells_volts_no_cell_count (cfg : Config) (st : DalyState) (bus : Bus)
    (h : st.cell_count = none) :
    read_cells_volts cfg st bus = ⟨.ok true, st, bus, [.cellsVolts]⟩ := by
  unfold read_cells_volts
  rw [h]

/-- Witness for C10 at the freshly initialized state. -/
theorem C10_witness :
    read_cells_volts cfgW initState [] = ⟨.ok true, initState, [], [.cellsVolts]⟩ :=
  C10_read_cells_volts_no_cell_count cfgW initState [] rfl

/-- C2 is false of the code: on a payload shorter than the declared
layout (here an empty frame, and for the cell decoder a 1-byte buffer)
every decoder raises `struct.error` — the `structError` outcome below —
rather than returning the boolean False the claim describes. -/
theorem C2_short_payload_raises :
    (read_status_data cfgW initState [[]]).result = .error .structError ∧
    (read_soc_data cfgW initState [[]]).result = .error .structError ∧
    (read_fed_data cfgW initState [[]]).result = .error .structError ∧
    (read_alarm_data cfgW initState [[]]).result = .error .structError ∧
    (read_cell_voltage_range_data cfgW initState [[]]).result = .error .structError ∧
    (read_temperature_range_data cfgW initState [[]]).result = .error .structError ∧
    (read_cells_volts cfgW stThreeCells [[0], [], [], [], [], []]).result = .error .structError := by
  refine ⟨rfl, rfl, rfl, rfl, rfl, rfl, ?_⟩
  simp [read_cells_volts, read_bus_data_daly, stThreeCells, initState, cellsLoop, pyUnpackFrom,
        pyCalcsize, fmtCellVolts, fmtItemSize]

/-- C9 is false of the code: the two status-ingestion paths diverge.  On
the same cached status payload the synchronous `read_status_data` decode
succeeds (4 cells), while `read_daly_can`'s cache-pull decode raises
`struct.error` unconditionally: its format string `">BB??BHX"` contains
`X`, which is not a struct format character. -/
theorem C9_status_paths_diverge :
    (read_status_data cfgW initState [statusPayloadW]).result = .ok true ∧
    (read_status_data cfgW initState [statusPayloadW]).state.cell_count = some 4 ∧
    (read_daly_can cfgW 0 [(0x18940140, statusPayloadW)] initState).1 = .error .structError := by
  refine ⟨rfl, rfl, ?_⟩
  simp [read_daly_can, read_daly_can_loop, CAN_FRAMES_COMMAND_STATUS, cfgW, initState,
        pyUnpackFrom_fmtStatusCached]

theorem byteAt_lt_256 (p : List Nat) (hb : ∀ x ∈ p, x < 256) (k : Nat) (hk : k < p.length) :
    byteAt p k < 256 := by
  have h : byteAt p k = p[k] := List.getD_eq_getElem p 0 hk
  rw [h]
  exact hb _ (List.getElem_mem hk)

set_option maxRecDepth 8192 in
theorem pyAndMask_bits : ∀ b : Fin 256,
    (pyAndMask (i8val b.val) 48 = (nthBit b.val 4 || nthBit b.val 5)) ∧
    (pyAndMask (i8val b.val) 15 =
      (nthBit b.val 0 || nthBit b.val 1 || nthBit b.val 2 || nthBit b.val 3)) ∧
    (pyAndMask (i8val b.val) 128 = nthBit b.val 7) ∧
    (pyAndMask (i8val b.val) 64 = nthBit b.val 6) ∧
    (pyAndMask (i8val b.val) 1 = nthBit b.val 0) ∧
    (pyAndMask (i8val b.val) 2 = nthBit b.val 1) ∧
    (pyAndMask (i8val b.val) 4 = nthBit b.val 2) ∧
    (pyAndMask (i8val b.val) 8 = nthBit b.val 3) ∧
    (pyAndMask (i8val b.val) 16 = nthBit b.val 4) ∧
    (pyAndMask (i8val b.val) 32 = nthBit b.val 5) := by decide

/-- C6: for every alarm payload of at least 8 bytes, `read_alarm_data`
returns True and maps each protection condition independently from its two
bit groups, alarm bits checked before pre-alarm bits: the voltage byte
gives high_voltage 2 on bits 4–5, else 1 on bits 0–3, else 0; low_voltage
prefers bit 7 over bit 6; the four temperature conditions, the combined
high-charge-current condition (bits 1 or 3 over bits 0 or 2) and low_soc
(bit 7 over bit 6) are analogous. -/
theorem C6_read_alarm_data (cfg : Config) (st : DalyState) (p : List Nat) (rest : Bus)
    (h8 : 8 ≤ p.length) (hb : ∀ x ∈ p, x < 256) :
    read_alarm_data cfg st (p :: rest) =
      ⟨.ok true,
       { st with protection :=
          { high_voltage := some (if nthBit (byteAt p 0) 4 || nthBit (byteAt p 0) 5 then 2
              else if nthBit (byteAt p 0) 0 || nthBit (byteAt p 0) 1 || nthBit (byteAt p 0) 2
                      || nthBit (byteAt p 0) 3 then 1 else 0)
            low_voltage := some (if nthBit (byteAt p 0) 7 then 2
              else if nthBit (byteAt p 0) 6 then 1 else 0)
            high_charge_temp := some (if nthBit (byteAt p 1) 1 then 2
              else if nthBit (byteAt p 1) 0 then 1 else 0)
            low_charge_temp := some (if nthBit (byteAt p 1) 3 then 2
              else if nthBit (byteAt p 1) 2 then 1 else 0)
            high_temperature := some (if nthBit (byteAt p 1) 5 then 2
              else if nthBit (byteAt p 1) 4 then 1 else 0)
            low_temperature := some (if nthBit (byteAt p 1) 7 then 2
              else if nthBit (byteAt p 1) 6 then 1 else 0)
            high_charge_current := some (if nthBit (byteAt p 2) 1 ∨ nthBit (byteAt p 2) 3 then 2
              else if nthBit (byteAt p 2) 0 ∨ nthBit (byteAt p 2) 2 then 1 else 0)
            low_soc := some (if nthBit (byteAt p 2) 7 then 2
              else if nthBit (byteAt p 2) 6 then 1 else 0) } },
       rest, [.alarm]⟩ := by
  have e0 := pyAndMask_bits ⟨byteAt p 0, byteAt_lt_256 p hb 0 (by omega)⟩
  have e1 := pyAndMask_bits ⟨byteAt p 1, byteAt_lt_256 p hb 1 (by omega)⟩
  have e2 := pyAndMask_bits ⟨byteAt p 2, byteAt_lt_256 p hb 2 (by omega)⟩
  unfold read_alarm_data alarmProtection
  rw [read_bus_one]
  dsimp only
  rw [pyUnpackFrom_fmtAlarm p h8]
  dsimp only
  rw [e0.1, e0.2.1, e0.2.2.1, e0.2.2.2.1,
      e1.2.2.2.2.2.1, e1.2.2.2.2.1, e1.2.2.2.2.2.2.2.1, e1.2.2.2.2.2.2.1,
      e1.2.2.2.2.2.2.2.2.2, e1.2.2.2.2.2.2.2.2.1, e1.2.2.1, e1.2.2.2.1,
      e2.2.2.2.2.2.1, e2.2.2.2.2.2.2.2.1, e2.2.2.2.2.1, e2.2.2.2.2.2.2.1,
      e2.2.2.1, e2.2.2.2.1]

/-- Witness for C6: voltage byte 48 (bits 4–5) gives full alarm, charge
temperature byte 5 (bits 0 and 2) gives the two pre-alarms, byte 192
(bits 6 and 7) lets the low-SoC alarm win over its pre-alarm. -/
theorem C6_witness :
    read_alarm_data cfgW initState [[48, 5, 192, 0, 0, 0, 0, 0]] =
      ⟨.ok true,
       { initState with protection :=
          { high_voltage := some 2, low_voltage := some 0, high_charge_temp := some 1,
            low_charge_temp := some 1, high_temperature := some 0, low_temperature := some 0,
            high_charge_current := some 0, low_soc := some 2 } },
       [], [.alarm]⟩ := by
  have h := C6_read_alarm_data cfgW initState [48, 5, 192, 0, 0, 0, 0, 0] [] (by decide) (by decide)
  rw [h]
  rfl

theorem read_daly_can_loop_error_active (cfg : Config) (cache : List (Nat × List Nat))
    (st : DalyState) (dc : Int) :
    (read_daly_can_loop cfg cache st dc).2.1.error_active = st.error_active := by
  induction cache generalizing st dc with
  | nil => rfl
  | cons hd tl ih =>
    obtain ⟨fid, data⟩ := hd
    unfold read_daly_can_loop
    by_cases hmem : fid + cfg.device_address ∈ CAN_FRAMES_COMMAND_STATUS
    · rw [if_pos hmem, pyUnpackFrom_fmtStatusCached]
    · rw [if_neg hmem]
      exact ih st dc

theorem read_daly_can_state_error_active (cfg : Config) (now : ℚ)
    (cache : List (Nat × List Nat)) (st : DalyState) :
    (read_daly_can cfg now cache st).2.error_active =
      (if now - st.last_error_time > 120 ∧ st.error_active = true then false
       else st.error_active) := by
  unfold read_daly_can
  dsimp only
  by_cases hc : now - st.last_error_time > 120 ∧ st.error_active = true
  · rw [if_pos hc, if_pos hc]
    generalize hl : read_daly_can_loop cfg cache { st with error_active := false } 0 = r
    obtain ⟨res, st1, dc⟩ := r
    have h1 : st1.error_active = false := by
      have h2 := read_daly_can_loop_error_active cfg cache { st with error_active := false } 0
      rw [hl] at h2
      exact h2
    cases res with
    | error e => exact h1
    | ok u =>
      dsimp only
      by_cases hdc : dc = 0
      · rw [if_pos hdc]
        exact h1
      · rw [if_neg hdc]
        exact h1
  · rw [if_neg hc, if_neg hc]
    generalize hl : read_daly_can_loop cfg cache st 0 = r
    obtain ⟨res, st1, dc⟩ := r
    have h1 : st1.error_active = st.error_active := by
      have h2 := read_daly_can_loop_error_active cfg cache st 0
      rw [hl] at h2
      exact h2
    cases res with
    | error e => exact h1
    | ok u =>
      dsimp only
      by_cases hdc : dc = 0
      · rw [if_pos hdc]
        exact h1
      · rw [if_neg hdc]
        exact h1

/-- C8: the 120-second error latch is evaluated at the start of the
cache-pull poll cycle `read_daly_can`, before any frame is examined: with
the latch set, a cycle strictly more than 120 s after `last_error_time`
clears `error_active`, and a cycle at 120 s or less (for example 119 s)
leaves it set — for every cache content. -/
theorem C8_error_latch (cfg : Config) (now : ℚ) (cache : List (Nat × List Nat))
    (st : DalyState) :
    (st.error_active = true → now - st.last_error_time > 120 →
      (read_daly_can cfg now cache st).2.error_active = false) ∧
    (now - st.last_error_time ≤ 120 →
      (read_daly_can cfg now cache st).2.error_active = st.error_active) := by
  constructor
  · intro ha he
    rw [read_daly_can_state_error_active]
    rw [if_pos ⟨he, ha⟩]
  · intro hle
    rw [read_daly_can_state_error_active]
    rw [if_neg (fun h => absurd h.1 (not_lt.mpr hle))]

/-- Witness for C8: latch set at t = 0; the cycle at t = 121 clears it,
the cycle at t = 119 keeps it. -/
theorem C8_witness :
    (read_daly_can cfgW 121 [] { initState with error_active := true }).2.error_active = false ∧
    (read_daly_can cfgW 119 [] { initState with error_active := true }).2.error_active = true := by
  constructor
  · exact (C8_error_latch cfgW 121 [] _).1 rfl (by norm_num [initState])
  · exact ((C8_error_latch cfgW 119 [] _).2 (by norm_num [initState])).trans rfl

theorem read_soc_data_trace (cfg : Config) (st : DalyState) (bus : Bus) :
    (read_soc_data cfg st bus).trace = [.soc] := rfl

theorem read_fed_data_trace (cfg : Config) (st : DalyState) (bus : Bus) :
    (read_fed_data cfg st bus).trace = [.fet] := by
  unfold read_fed_data
  repeat' split
  all_goals rfl

theorem read_alarm_data_trace (cfg : Config) (st : DalyState) (bus : Bus) :
    (read_alarm_data cfg st bus).trace = [.alarm] := by
  unfold read_alarm_data
  repeat' split
  all_goals rfl

theorem read_cell_voltage_range_data_trace (cfg : Config) (st : DalyState) (bus : Bus) :
    (read_cell_voltage_range_data cfg st bus).trace = [.cellRange] := by
  unfold read_cell_voltage_range_data
  repeat' split
  all_goals rfl

theorem read_temperature_range_data_trace (cfg : Config) (st : DalyState) (bus : Bus) :
    (read_temperature_range_data cfg st bus).trace = [.tempRange] := by
  unfold read_temperature_range_data
  repeat' split
  all_goals rfl

theorem read_cells_volts_trace (cfg : Config) (st : DalyState) (bus : Bus) :
    (read_cells_volts cfg st bus).trace = [.cellsVolts] := by
  unfold read_cells_volts
  repeat' split
  all_goals try rfl
  all_goals dsimp only
  all_goals split
  all_goals rfl

theorem read_soc_attempts_poll_step (cfg : Config) :
    ∀ (n : Nat) (st : DalyState) (bus : Bus),
      (read_soc_attempts cfg st bus n).2.1.poll_step = st.poll_step := by
  intro n
  induction n with
  | zero => intro st bus; rfl
  | succ k ih =>
    intro st bus
    unfold read_soc_attempts
    repeat' split
    all_goals try rfl
    all_goals dsimp only
    all_goals split
    all_goals first | rfl | apply ih

theorem read_soc_data_poll_step (cfg : Config) (st : DalyState) (bus : Bus) :
    (read_soc_data cfg st bus).state.poll_step = st.poll_step := by
  unfold read_soc_data
  exact read_soc_attempts_poll_step cfg 2 st bus

theorem read_fed_data_poll_step (cfg : Config) (st : DalyState) (bus : Bus) :
    (read_fed_data cfg st bus).state.poll_step = st.poll_step := by
  unfold read_fed_data
  repeat' split
  all_goals rfl

theorem read_alarm_data_poll_step (cfg : Config) (st : DalyState) (bus : Bus) :
    (read_alarm_data cfg st bus).state.poll_step = st.poll_step := by
  unfold read_alarm_data
  repeat' split
  all_goals rfl

theorem read_cell_voltage_range_data_poll_step (cfg : Config) (st : DalyState) (bus : Bus) :
    (read_cell_voltage_range_data cfg st bus).state.poll_step = st.poll_step := by
  unfold read_cell_voltage_range_data
  repeat' split
  all_goals rfl

theorem read_temperature_range_data_poll_step (cfg : Config) (st : DalyState) (bus : Bus) :
    (read_temperature_range_data cfg st bus).state.poll_step = st.poll_step := by
  unfold read_temperature_range_data
  repeat' split
  all_goals rfl

theorem read_cells_volts_poll_step (cfg : Config) (st : DalyState) (bus : Bus) :
    (read_cells_volts cfg st bus).state.poll_step = st.poll_step := by
  unfold read_cells_volts
  repeat' split
  all_goals try rfl
  all_goals dsimp only
  all_goals split
  all_goals rfl

theorem pyAndThen_not_true (r : PyResult) (f : DalyState → Bus → PyResult)
    (h : r.result ≠ .ok true) : pyAndThen r f = r := by
  unfold pyAndThen
  split
  · rfl
  · rfl
  · rename_i hb
    exact absurd hb h

theorem pyAndThen_true (r : PyResult) (f : DalyState → Bus → PyResult)
    (h : r.result = .ok true) :
    pyAndThen r f = ⟨(f r.state r.bus).result, (f r.state r.bus).state, (f r.state r.bus).bus,
                     r.trace ++ (f r.state r.bus).trace⟩ := by
  unfold pyAndThen
  split
  · rename_i he
    rw [h] at he
    cases he
  · rename_i he
    rw [h] at he
    cases he
  · rfl

theorem bumpPollStep_result (r : PyResult) : (bumpPollStep r).result = r.result := by
  unfold bumpPollStep
  split <;> rfl

theorem bumpPollStep_trace (r : PyResult) : (bumpPollStep r).trace = r.trace := by
  unfold bumpPollStep
  split <;> rfl

theorem bumpPollStep_poll_ok (r : PyResult) (b : Bool) (h : r.result = .ok b) :
    (bumpPollStep r).state.poll_step = r.state.poll_step + 1 := by
  unfold bumpPollStep
  split
  · rename_i heq
    rw [h] at heq
    cases heq
  · rfl

theorem bumpPollStep_error (r : PyResult) (e : DalyErr) (h : r.result = .error e) :
    bumpPollStep r = r := by
  unfold bumpPollStep
  split
  · rfl
  · rename_i heq
    rw [h] at heq
    cases heq

theorem pyAndThen_trace_append (r : PyResult) (f : DalyState → Bus → PyResult) :
    ∃ t, (pyAndThen r f).trace = r.trace ++ t := by
  unfold pyAndThen
  split
  · exact ⟨[], (List.append_nil _).symm⟩
  · exact ⟨[], (List.append_nil _).symm⟩
  · exact ⟨(f r.state r.bus).trace, rfl⟩

theorem bump_pyAndThen_char (r2 : PyResult) (g : DalyState → Bus → PyResult) (k : ReadKind)
    (b : Bool) (hr : r2.result = .ok b)
    (hg_tr : ∀ st bus, (g st bus).trace = [k])
    (hg_ps : ∀ st bus, (g st bus).state.poll_step = st.poll_step) :
    ((∃ e, (bumpPollStep (pyAndThen r2 g)).result = .error e) ∧
       (bumpPollStep (pyAndThen r2 g)).state.poll_step = r2.state.poll_step) ∨
    ((∃ b2, (bumpPollStep (pyAndThen r2 g)).result = .ok b2) ∧
       (bumpPollStep (pyAndThen r2 g)).state.poll_step = r2.state.poll_step + 1 ∧
       ((bumpPollStep (pyAndThen r2 g)).result = .ok true →
          b = true ∧ (bumpPollStep (pyAndThen r2 g)).trace = r2.trace ++ [k])) := by
  cases b with
  | false =>
    have hne : r2.result ≠ .ok true := by
      rw [hr]
      simp
    rw [pyAndThen_not_true _ _ hne]
    right
    refine ⟨⟨false, ?_⟩, ?_, ?_⟩
    · rw [bumpPollStep_result, hr]
    · exact bumpPollStep_poll_ok r2 false hr
    · intro htrue
      rw [bumpPollStep_result, hr] at htrue
      simp at htrue
  | true =>
    rw [pyAndThen_true _ _ hr]
    rcases hgr : (g r2.state r2.bus).result with e | bg
    · have hr3 : ((⟨Except.error e, (g r2.state r2.bus).state, (g r2.state r2.bus).bus,
          r2.trace ++ (g r2.state r2.bus).trace⟩ : PyResult)).result = .error e := rfl
      rw [bumpPollStep_error _ e hr3]
      left
      refine ⟨⟨e, hr3⟩, ?_⟩
      show (g r2.state r2.bus).state.poll_step = r2.state.poll_step
      exact hg_ps r2.state r2.bus
    · have hr3 : ((⟨Except.ok bg, (g r2.state r2.bus).state, (g r2.state r2.bus).bus,
          r2.trace ++ (g r2.state r2.bus).trace⟩ : PyResult)).result = .ok bg := rfl
      right
      refine ⟨⟨bg, ?_⟩, ?_, ?_⟩
      · rw [bumpPollStep_result]
      · rw [bumpPollStep_poll_ok _ bg hr3]
        show (g r2.state r2.bus).state.poll_step + 1 = r2.state.poll_step + 1
        rw [hg_ps]
      · intro _
        refine ⟨rfl, ?_⟩
        rw [bumpPollStep_trace]
        show r2.trace ++ (g r2.state r2.bus).trace = r2.trace ++ [k]
        rw [hg_tr]

theorem refreshStep_char (cfg : Config) (r2 : PyResult) (b : Bool) (hr : r2.result = .ok b) :
    ((∃ e, (refreshStep cfg r2).result = .error e) ∧
       (refreshStep cfg r2).state.poll_step = r2.state.poll_step) ∨
    ((∃ b2, (refreshStep cfg r2).result = .ok b2) ∧
       (refreshStep cfg r2).state.poll_step =
         (if r2.state.poll_step = 3 then 0 else r2.state.poll_step + 1) ∧
       ((refreshStep cfg r2).result = .ok true →
          b = true ∧ (refreshStep cfg r2).trace = r2.trace ++ optTrace r2.state.poll_step)) := by
  unfold refreshStep
  by_cases h0 : r2.state.poll_step = 0
  · rw [if_pos h0]
    have h3 : ¬(r2.state.poll_step = 3) := by
      rw [h0]
      decide
    rcases bump_pyAndThen_char r2 (read_cell_voltage_range_data cfg) .cellRange b hr
        (read_cell_voltage_range_data_trace cfg) (read_cell_voltage_range_data_poll_step cfg) with
      ⟨he, hp⟩ | ⟨he, hp, ht⟩
    · exact Or.inl ⟨he, hp⟩
    · right
      refine ⟨he, ?_, ?_⟩
      · rw [hp, if_neg h3]
      · intro htrue
        obtain ⟨hb, htr⟩ := ht htrue
        refine ⟨hb, ?_⟩
        rw [htr]
        simp [optTrace, h0]
  · rw [if_neg h0]
    by_cases h1 : r2.state.poll_step = 1
    · rw [if_pos h1]
      have h3 : ¬(r2.state.poll_step = 3) := by
        rw [h1]
        decide
      rcases bump_pyAndThen_char r2 (read_alarm_data cfg) .alarm b hr
          (read_alarm_data_trace cfg) (read_alarm_data_poll_step cfg) with
        ⟨he, hp⟩ | ⟨he, hp, ht⟩
      · exact Or.inl ⟨he, hp⟩
      · right
        refine ⟨he, ?_, ?_⟩
        · rw [hp, if_neg h3]
        · intro htrue
          obtain ⟨hb, htr⟩ := ht htrue
          refine ⟨hb, ?_⟩
          rw [htr]
          simp [optTrace, h0, h1]
    · rw [if_neg h1]
      by_cases h2 : r2.state.poll_step = 2
      · rw [if_pos h2]
        have h3 : ¬(r2.state.poll_step = 3) := by
          rw [h2]
          decide
        rcases bump_pyAndThen_char r2 (read_cells_volts cfg) .cellsVolts b hr
            (read_cells_volts_trace cfg) (read_cells_volts_poll_step cfg) with
          ⟨he, hp⟩ | ⟨he, hp, ht⟩
        · exact Or.inl ⟨he, hp⟩
        · right
          refine ⟨he, ?_, ?_⟩
          · rw [hp, if_neg h3]
          · intro htrue
            obtain ⟨hb, htr⟩ := ht htrue
            refine ⟨hb, ?_⟩
            rw [htr]
            simp [optTrace, h0, h1, h2]
      · rw [if_neg h2]
        by_cases h3 : r2.state.poll_step = 3
        · rw [if_pos h3]
          dsimp only
          cases b with
          | false =>
            have hne : r2.result ≠ .ok true := by
              rw [hr]
              simp
            rw [pyAndThen_not_true _ _ hne]
            rw [hr]
            dsimp only
            right
            refine ⟨⟨false, rfl⟩, ?_, ?_⟩
            · rw [if_pos h3]
              decide
            · intro htrue
              simp at htrue
          | true =>
            rw [pyAndThen_true _ _ hr]
            dsimp only
            rcases hgr : (read_temperature_range_data cfg r2.state r2.bus).result with e | bg
            · dsimp only
              left
              exact ⟨⟨e, rfl⟩, read_temperature_range_data_poll_step cfg r2.state r2.bus⟩
            · dsimp only
              right
              refine ⟨⟨bg, rfl⟩, ?_, ?_⟩
              · dsimp only
                rw [if_pos h3]
                decide
              · intro htrue
                have hb : bg = true := by
                  injection htrue
                subst hb
                refine ⟨rfl, ?_⟩
                dsimp only
                rw [read_temperature_range_data_trace cfg]
                simp [optTrace, h0, h1, h2, h3]
        · rw [if_neg h3]
          right
          refine ⟨⟨b, ?_⟩, ?_, ?_⟩
          · rw [bumpPollStep_result, hr]
          · rw [bumpPollStep_poll_ok r2 b hr, if_neg h3]
          · intro htrue
            rw [bumpPollStep_result, hr] at htrue
            cases htrue
            refine ⟨rfl, ?_⟩
            rw [bumpPollStep_trace]
            simp [optTrace, h0, h1, h2, h3]

theorem refresh_data_char (cfg : Config) (st : DalyState) (bus : Bus) :
    ((∃ e, (refresh_data cfg st bus).result = .error e) ∧
       (refresh_data cfg st bus).state.poll_step = st.poll_step) ∨
    ((∃ b, (refresh_data cfg st bus).result = .ok b) ∧
       (refresh_data cfg st bus).state.poll_step =
         (if st.poll_step = 3 then 0 else st.poll_step + 1) ∧
       ((refresh_data cfg st bus).result = .ok true →
          (refresh_data cfg st bus).trace = [.soc, .fet] ++ optTrace st.poll_step)) := by
  unfold refresh_data
  dsimp only
  rcases hsoc : (read_soc_data cfg st bus).result with e | b1
  · have hne : (read_soc_data cfg st bus).result ≠ .ok true := by
      rw [hsoc]
      simp
    rw [pyAndThen_not_true _ _ hne, hsoc]
    dsimp only
    left
    exact ⟨⟨e, hsoc⟩, read_soc_data_poll_step cfg st bus⟩
  · cases b1 with
    | false =>
      have hne : (read_soc_data cfg st bus).result ≠ .ok true := by
        rw [hsoc]
        simp
      rw [pyAndThen_not_true _ _ hne, hsoc]
      dsimp only
      rcases refreshStep_char cfg (read_soc_data cfg st bus) false hsoc with
        ⟨he, hp⟩ | ⟨he, hp, ht⟩
      · left
        exact ⟨he, hp.trans (read_soc_data_poll_step cfg st bus)⟩
      · right
        refine ⟨he, ?_, ?_⟩
        · rw [read_soc_data_poll_step cfg st bus] at hp
          exact hp
        · intro htrue
          obtain ⟨hb, _⟩ := ht htrue
          cases hb
    | true =>
      rw [pyAndThen_true _ _ hsoc, read_soc_data_trace, read_fed_data_trace]
      dsimp only
      rcases hfed :
          (read_fed_data cfg (read_soc_data cfg st bus).state (read_soc_data cfg st bus).bus).result
        with e2 | b2
      · dsimp only
        left
        refine ⟨⟨e2, rfl⟩, ?_⟩
        exact (read_fed_data_poll_step cfg _ _).trans (read_soc_data_poll_step cfg st bus)
      · dsimp only
        have hps : ((⟨Except.ok b2,
            (read_fed_data cfg (read_soc_data cfg st bus).state (read_soc_data cfg st bus).bus).state,
            (read_fed_data cfg (read_soc_data cfg st bus).state (read_soc_data cfg st bus).bus).bus,
            [ReadKind.soc] ++ [ReadKind.fet]⟩ : PyResult)).state.poll_step = st.poll_step :=
          (read_fed_data_poll_step cfg _ _).trans (read_soc_data_poll_step cfg st bus)
        rcases refreshStep_char cfg
            (⟨Except.ok b2,
              (read_fed_data cfg (read_soc_data cfg st bus).state (read_soc_data cfg st bus).bus).state,
              (read_fed_data cfg (read_soc_data cfg st bus).state (read_soc_data cfg st bus).bus).bus,
              [ReadKind.soc] ++ [ReadKind.fet]⟩ : PyResult) b2 rfl with
          ⟨he, hp⟩ | ⟨he, hp, ht⟩
        · left
          exact ⟨he, hp.trans hps⟩
        · right
          refine ⟨he, ?_, ?_⟩
          · rw [hps] at hp
            exact hp
          · intro htrue
            obtain ⟨_, htr⟩ := ht htrue
            rw [htr, hps]
            rfl

theorem refreshStep_trace_append (cfg : Config) (r2 : PyResult) :
    ∃ t, (refreshStep cfg r2).trace = r2.trace ++ t := by
  unfold refreshStep
  by_cases h0 : r2.state.poll_step = 0
  · rw [if_pos h0, bumpPollStep_trace]
    exact pyAndThen_trace_append _ _
  rw [if_neg h0]
  by_cases h1 : r2.state.poll_step = 1
  · rw [if_pos h1, bumpPollStep_trace]
    exact pyAndThen_trace_append _ _
  rw [if_neg h1]
  by_cases h2 : r2.state.poll_step = 2
  · rw [if_pos h2, bumpPollStep_trace]
    exact pyAndThen_trace_append _ _
  rw [if_neg h2]
  by_cases h3 : r2.state.poll_step = 3
  · rw [if_pos h3]
    dsimp only
    rcases pyAndThen_trace_append r2 (read_temperature_range_data cfg) with ⟨t, ht⟩
    split
    · exact ⟨t, ht⟩
    · exact ⟨t, ht⟩
  · rw [if_neg h3, bumpPollStep_trace]
    exact ⟨[], (List.append_nil _).symm⟩

theorem refreshStep_trace_false (cfg : Config) (r2 : PyResult) (hr : r2.result = .ok false) :
    (refreshStep cfg r2).trace = r2.trace := by
  have hne : r2.result ≠ .ok true := by
    rw [hr]
    simp
  unfold refreshStep
  by_cases h0 : r2.state.poll_step = 0
  · rw [if_pos h0, bumpPollStep_trace, pyAndThen_not_true _ _ hne]
  rw [if_neg h0]
  by_cases h1 : r2.state.poll_step = 1
  · rw [if_pos h1, bumpPollStep_trace, pyAndThen_not_true _ _ hne]
  rw [if_neg h1]
  by_cases h2 : r2.state.poll_step = 2
  · rw [if_pos h2, bumpPollStep_trace, pyAndThen_not_true _ _ hne]
  rw [if_neg h2]
  by_cases h3 : r2.state.poll_step = 3
  · rw [if_pos h3]
    dsimp only
    rw [pyAndThen_not_true _ _ hne, hr]
  · rw [if_neg h3, bumpPollStep_trace]

theorem refresh_data_trace_soc_fet (cfg : Config) (st : DalyState) (bus : Bus) :
    ((read_soc_data cfg st bus).result = .ok true →
       ∃ t, (refresh_data cfg st bus).trace = [ReadKind.soc, ReadKind.fet] ++ t) ∧
    ((read_soc_data cfg st bus).result ≠ .ok true →
       (refresh_data cfg st bus).trace = [ReadKind.soc]) := by
  constructor
  · intro hsoc
    unfold refresh_data
    dsimp only
    rw [pyAndThen_true _ _ hsoc, read_soc_data_trace, read_fed_data_trace]
    dsimp only
    rcases hfed :
        (read_fed_data cfg (read_soc_data cfg st bus).state (read_soc_data cfg st bus).bus).result
      with e2 | b2
    · dsimp only
      exact ⟨[], by simp⟩
    · dsimp only
      rcases refreshStep_trace_append cfg
          (⟨Except.ok b2,
            (read_fed_data cfg (read_soc_data cfg st bus).state (read_soc_data cfg st bus).bus).state,
            (read_fed_data cfg (read_soc_data cfg st bus).state (read_soc_data cfg st bus).bus).bus,
            [ReadKind.soc] ++ [ReadKind.fet]⟩ : PyResult) with ⟨t, ht⟩
      refine ⟨t, ?_⟩
      rw [ht]
      rfl
  · intro hne
    unfold refresh_data
    dsimp only
    rw [pyAndThen_not_true _ _ hne]
    rcases hsoc : (read_soc_data cfg st bus).result with e | b1
    · dsimp only
      exact read_soc_data_trace cfg st bus
    · cases b1 with
      | true => exact absurd hsoc hne
      | false =>
        dsimp only
        rw [refreshStep_trace_false cfg _ hsoc]
        exact read_soc_data_trace cfg st bus

/-- C4 is false as stated: when the SOC read fails (here: implausible
current twice), Python's short-circuit `and` skips the FET read — the
invocation's ghost trace records only the SOC read. -/
theorem C4_counterexample :
    (refresh_data cfgW initState busC4).trace = [ReadKind.soc] ∧
    ReadKind.fet ∉ (refresh_data cfgW initState busC4).trace := by
  have hout : ¬(-(cfgW.MAX_BATTERY_DISCHARGE_CURRENT * 2.1) < physCurrent cfgW socBadPayload ∧
      physCurrent cfgW socBadPayload < cfgW.MAX_BATTERY_CHARGE_CURRENT * 1.3) := by
    norm_num [physCurrent, rawCurrent, i16be, byteAt, List.getD, socBadPayload, cfgW,
              CURRENT_ZERO_CONSTANT]
  have hsoc : read_soc_data cfgW initState busC4 = ⟨.ok false, initState, [fetPayload], [.soc]⟩ := by
    unfold read_soc_data
    rw [show busC4 = socBadPayload :: socBadPayload :: [fetPayload] from rfl]
    rw [show (2 : Nat) = 1 + 1 from rfl]
    rw [read_soc_attempts_out_of_bounds cfgW initState socBadPayload (socBadPayload :: [fetPayload])
        1 (by norm_num [socBadPayload]) hout]
    rw [show (1 : Nat) = 0 + 1 from rfl]
    rw [read_soc_attempts_out_of_bounds cfgW initState socBadPayload [fetPayload]
        0 (by norm_num [socBadPayload]) hout]
    rfl
  have hne : (read_soc_data cfgW initState busC4).result ≠ .ok true := by
    rw [hsoc]
    simp
  have htr := (refresh_data_trace_soc_fet cfgW initState busC4).2 hne
  refine ⟨htr, ?_⟩
  rw [htr]
  decide

/-- C4 amended: every invocation of `refresh_data` performs the SOC read,
and the FET read is performed exactly when the SOC read returns True
(Python's short-circuit `and`), in which case it is performed regardless
of `poll_step`; after a failed SOC read no other read runs. -/
theorem C4_refresh_reads (cfg : Config) (st : DalyState) (bus : Bus) :
    ReadKind.soc ∈ (refresh_data cfg st bus).trace ∧
    ((read_soc_data cfg st bus).result = .ok true →
      ReadKind.fet ∈ (refresh_data cfg st bus).trace) ∧
    ((read_soc_data cfg st bus).result ≠ .ok true →
      ReadKind.fet ∉ (refresh_data cfg st bus).trace) := by
  obtain ⟨h1, h2⟩ := refresh_data_trace_soc_fet cfg st bus
  refine ⟨?_, ?_, ?_⟩
  · by_cases hsoc : (read_soc_data cfg st bus).result = .ok true
    · obtain ⟨t, ht⟩ := h1 hsoc
      rw [ht]
      simp
    · rw [h2 hsoc]
      simp
  · intro hsoc
    obtain ⟨t, ht⟩ := h1 hsoc
    rw [ht]
    simp
  · intro hsoc
    rw [h2 hsoc]
    simp

/-- Witness for C4 (amended): with an in-bounds SOC payload the
invocation's trace contains both the SOC and the FET read. -/
theorem C4_witness :
    ReadKind.soc ∈ (refresh_data cfgW initState [socGoodPayload, fetPayload]).trace ∧
    ReadKind.fet ∈ (refresh_data cfgW initState [socGoodPayload, fetPayload]).trace := by
  obtain ⟨h1, h2, _⟩ := C4_refresh_reads cfgW initState [socGoodPayload, fetPayload]
  refine ⟨h1, h2 ?_⟩
  have hs := read_soc_attempts_in_bounds cfgW initState socGoodPayload [fetPayload] 1
    (by norm_num [socGoodPayload])
    (by norm_num [physCurrent, rawCurrent, i16be, byteAt, List.getD, socGoodPayload, cfgW,
                  CURRENT_ZERO_CONSTANT])
    (by norm_num [physCurrent, rawCurrent, i16be, byteAt, List.getD, socGoodPayload, cfgW,
                  CURRENT_ZERO_CONSTANT])
  unfold read_soc_data
  rw [show (2 : Nat) = 1 + 1 from rfl, hs]

theorem read_soc_attempts_cell_count (cfg : Config) :
    ∀ (n : Nat) (st : DalyState) (bus : Bus),
      (read_soc_attempts cfg st bus n).2.1.cell_count = st.cell_count := by
  intro n
  induction n with
  | zero => intro st bus; rfl
  | succ k ih =>
    intro st bus
    unfold read_soc_attempts
    repeat' split
    all_goals try rfl
    all_goals dsimp only
    all_goals split
    all_goals first | rfl | apply ih

theorem read_soc_data_cell_count (cfg : Config) (st : DalyState) (bus : Bus) :
    (read_soc_data cfg st bus).state.cell_count = st.cell_count := by
  unfold read_soc_data
  exact read_soc_attempts_cell_count cfg 2 st bus

theorem read_fed_data_cell_count (cfg : Config) (st : DalyState) (bus : Bus) :
    (read_fed_data cfg st bus).state.cell_count = st.cell_count := by
  unfold read_fed_data
  repeat' split
  all_goals rfl

theorem read_alarm_data_cell_count (cfg : Config) (st : DalyState) (bus : Bus) :
    (read_alarm_data cfg st bus).state.cell_count = st.cell_count := by
  unfold read_alarm_data
  repeat' split
  all_goals rfl

theorem read_cell_voltage_range_data_cell_count (cfg : Config) (st : DalyState) (bus : Bus) :
    (read_cell_voltage_range_data cfg st bus).state.cell_count = st.cell_count := by
  unfold read_cell_voltage_range_data
  repeat' split
  all_goals rfl

theorem read_temperature_range_data_cell_count (cfg : Config) (st : DalyState) (bus : Bus) :
    (read_temperature_range_data cfg st bus).state.cell_count = st.cell_count := by
  unfold read_temperature_range_data
  repeat' split
  all_goals rfl

theorem read_cells_volts_cell_count (cfg : Config) (st : DalyState) (bus : Bus) :
    (read_cells_volts cfg st bus).state.cell_count = st.cell_count := by
  unfold read_cells_volts
  repeat' split
  all_goals try rfl
  all_goals dsimp only
  all_goals split
  all_goals rfl

theorem bumpPollStep_cell_count (r : PyResult) :
    (bumpPollStep r).state.cell_count = r.state.cell_count := by
  unfold bumpPollStep
  split <;> rfl

theorem pyAndThen_cell_count (r : PyResult) (g : DalyState → Bus → PyResult)
    (hg : ∀ st bus, (g st bus).state.cell_count = st.cell_count) :
    (pyAndThen r g).state.cell_count = r.state.cell_count := by
  unfold pyAndThen
  split
  · rfl
  · rfl
  · exact hg r.state r.bus

theorem refreshStep_cell_count (cfg : Config) (r2 : PyResult) :
    (refreshStep cfg r2).state.cell_count = r2.state.cell_count := by
  unfold refreshStep
  by_cases h0 : r2.state.poll_step = 0
  · rw [if_pos h0, bumpPollStep_cell_count]
    exact pyAndThen_cell_count _ _ (read_cell_voltage_range_data_cell_count cfg)
  rw [if_neg h0]
  by_cases h1 : r2.state.poll_step = 1
  · rw [if_pos h1, bumpPollStep_cell_count]
    exact pyAndThen_cell_count _ _ (read_alarm_data_cell_count cfg)
  rw [if_neg h1]
  by_cases h2 : r2.state.poll_step = 2
  · rw [if_pos h2, bumpPollStep_cell_count]
    exact pyAndThen_cell_count _ _ (read_cells_volts_cell_count cfg)
  rw [if_neg h2]
  by_cases h3 : r2.state.poll_step = 3
  · rw [if_pos h3]
    dsimp only
    split
    · exact pyAndThen_cell_count _ _ (read_temperature_range_data_cell_count cfg)
    · exact pyAndThen_cell_count _ _ (read_temperature_range_data_cell_count cfg)
  · rw [if_neg h3, bumpPollStep_cell_count]

theorem refresh_data_cell_count (cfg : Config) (st : DalyState) (bus : Bus) :
    (refresh_data cfg st bus).state.cell_count = st.cell_count := by
  have h2 : (pyAndThen (read_soc_data cfg st bus) (read_fed_data cfg)).state.cell_count =
      st.cell_count :=
    (pyAndThen_cell_count _ _ (read_fed_data_cell_count cfg)).trans
      (read_soc_data_cell_count cfg st bus)
  unfold refresh_data
  dsimp only
  split
  · exact h2
  · exact (refreshStep_cell_count cfg _).trans h2

theorem refreshStep_result_step0 (cfg : Config) (r2 : PyResult)
    (h0 : r2.state.poll_step = 0) (hr : r2.result = .ok true) :
    (refreshStep cfg r2).result = (read_cell_voltage_range_data cfg r2.state r2.bus).result := by
  unfold refreshStep
  rw [if_pos h0, bumpPollStep_result, pyAndThen_true _ _ hr]

theorem refreshStep_result_step1 (cfg : Config) (r2 : PyResult)
    (h1 : r2.state.poll_step = 1) (hr : r2.result = .ok true) :
    (refreshStep cfg r2).result = (read_alarm_data cfg r2.state r2.bus).result := by
  unfold refreshStep
  rw [if_neg (by rw [h1]; decide), if_pos h1, bumpPollStep_result, pyAndThen_true _ _ hr]

theorem refreshStep_result_step2 (cfg : Config) (r2 : PyResult)
    (h2 : r2.state.poll_step = 2) (hr : r2.result = .ok true) :
    (refreshStep cfg r2).result = (read_cells_volts cfg r2.state r2.bus).result := by
  unfold refreshStep
  rw [if_neg (by rw [h2]; decide), if_neg (by rw [h2]; decide), if_pos h2,
      bumpPollStep_result, pyAndThen_true _ _ hr]

theorem refreshStep_result_step3 (cfg : Config) (r2 : PyResult)
    (h3 : r2.state.poll_step = 3) (hr : r2.result = .ok true) :
    (refreshStep cfg r2).result = (read_temperature_range_data cfg r2.state r2.bus).result := by
  unfold refreshStep
  rw [if_neg (by rw [h3]; decide), if_neg (by rw [h3]; decide), if_neg (by rw [h3]; decide),
      if_pos h3]
  dsimp only
  rw [pyAndThen_true _ _ hr]
  dsimp only
  split
  · rename_i heq
    rw [heq]
  · rename_i b heq
    rw [heq]

theorem refresh_data_eq_step (cfg : Config) (st : DalyState) (bus : Bus)
    (hsoc : (read_soc_data cfg st bus).result = .ok true)
    (hfed : (read_fed_data cfg (read_soc_data cfg st bus).state
        (read_soc_data cfg st bus).bus).result = .ok true) :
    refresh_data cfg st bus = refreshStep cfg
      ⟨Except.ok true,
       (read_fed_data cfg (read_soc_data cfg st bus).state (read_soc_data cfg st bus).bus).state,
       (read_fed_data cfg (read_soc_data cfg st bus).state (read_soc_data cfg st bus).bus).bus,
       [ReadKind.soc] ++ [ReadKind.fet]⟩ := by
  unfold refresh_data
  dsimp only
  rw [pyAndThen_true _ _ hsoc, read_soc_data_trace, read_fed_data_trace, hfed]

/-- C5: every completed invocation of `refresh_data` (one whose reads all
return a boolean, so no exception escapes) advances `poll_step` by exactly
1 modulo 4, keeping it in {0,1,2,3}, regardless of the success or failure
of any read; and starting from `poll_step = 0`, four consecutive fully
successful invocations perform the optional reads cell-voltage-range,
alarm, per-cell-voltage and temperature-range, in that order, exactly
once each, after which `poll_step` is 0 again and the sequence repeats. -/
theorem C5_poll_cycle (cfg : Config) :
    (∀ (st : DalyState) (bus : Bus) (b : Bool),
        0 ≤ st.poll_step → st.poll_step < 4 →
        (refresh_data cfg st bus).result = .ok b →
        (refresh_data cfg st bus).state.poll_step = (st.poll_step + 1) % 4) ∧
    (∀ (st : DalyState) (bus1 bus2 bus3 bus4 : Bus),
        st.poll_step = 0 →
        (refresh_data cfg st bus1).result = .ok true →
        (refresh_data cfg (refresh_data cfg st bus1).state bus2).result = .ok true →
        (refresh_data cfg (refresh_data cfg (refresh_data cfg st bus1).state bus2).state
            bus3).result = .ok true →
        (refresh_data cfg (refresh_data cfg (refresh_data cfg (refresh_data cfg st bus1).state
            bus2).state bus3).state bus4).result = .ok true →
        ((refresh_data cfg st bus1).trace.filter isOptionalRead = [ReadKind.cellRange] ∧
         (refresh_data cfg (refresh_data cfg st bus1).state bus2).trace.filter isOptionalRead =
           [ReadKind.alarm] ∧
         (refresh_data cfg (refresh_data cfg (refresh_data cfg st bus1).state bus2).state
             bus3).trace.filter isOptionalRead = [ReadKind.cellsVolts] ∧
         (refresh_data cfg (refresh_data cfg (refresh_data cfg (refresh_data cfg st bus1).state
             bus2).state bus3).state bus4).trace.filter isOptionalRead = [ReadKind.tempRange] ∧
         (refresh_data cfg (refresh_data cfg (refresh_data cfg (refresh_data cfg st bus1).state
             bus2).state bus3).state bus4).state.poll_step = 0)) := by
  constructor
  · intro st bus b h0 h4 hok
    rcases refresh_data_char cfg st bus with ⟨⟨e, he⟩, _⟩ | ⟨_, hp, _⟩
    · rw [hok] at he
      cases he
    · have hcase : st.poll_step = 0 ∨ st.poll_step = 1 ∨ st.poll_step = 2 ∨ st.poll_step = 3 := by
        omega
      rcases hcase with h | h | h | h <;> rw [h] at hp ⊢ <;> rw [hp] <;> decide
  · intro st bus1 bus2 bus3 bus4 hstep h1 h2 h3 h4
    rcases refresh_data_char cfg st bus1 with ⟨⟨e, he⟩, _⟩ | ⟨_, hp1, htr1⟩
    · rw [h1] at he
      cases he
    have htrace1 := htr1 h1
    rw [hstep] at hp1 htrace1
    have hps1 : (refresh_data cfg st bus1).state.poll_step = 1 := by
      rw [hp1]
      decide
    rcases refresh_data_char cfg (refresh_data cfg st bus1).state bus2 with
      ⟨⟨e, he⟩, _⟩ | ⟨_, hp2, htr2⟩
    · rw [h2] at he
      cases he
    have htrace2 := htr2 h2
    rw [hps1] at hp2 htrace2
    have hps2 : (refresh_data cfg (refresh_data cfg st bus1).state bus2).state.poll_step = 2 := by
      rw [hp2]
      decide
    rcases refresh_data_char cfg
        (refresh_data cfg (refresh_data cfg st bus1).state bus2).state bus3 with
      ⟨⟨e, he⟩, _⟩ | ⟨_, hp3, htr3⟩
    · rw [h3] at he
      cases he
    have htrace3 := htr3 h3
    rw [hps2] at hp3 htrace3
    have hps3 : (refresh_data cfg (refresh_data cfg (refresh_data cfg st bus1).state bus2).state
        bus3).state.poll_step = 3 := by
      rw [hp3]
      decide
    rcases refresh_data_char cfg
        (refresh_data cfg (refresh_data cfg (refresh_data cfg st bus1).state bus2).state
          bus3).state bus4 with
      ⟨⟨e, he⟩, _⟩ | ⟨_, hp4, htr4⟩
    · rw [h4] at he
      cases he
    have htrace4 := htr4 h4
    rw [hps3] at hp4 htrace4
    refine ⟨?_, ?_, ?_, ?_, ?_⟩
    · rw [htrace1]
      decide
    · rw [htrace2]
      decide
    · rw [htrace3]
      decide
    · rw [htrace4]
      decide
    · rw [hp4]
      decide

theorem socGood_read (st : DalyState) (rest : Bus) :
    read_soc_data cfgW st (socGoodPayload :: rest) =
      ⟨.ok true,
       { st with
          voltage := some ((rawVoltage socGoodPayload : ℚ) / 10)
          current := some (physCurrent cfgW socGoodPayload)
          soc := some ((rawSoc socGoodPayload : ℚ) / 10) },
       rest, [.soc]⟩ := by
  unfold read_soc_data
  rw [show (2 : Nat) = 1 + 1 from rfl]
  rw [read_soc_attempts_in_bounds cfgW st socGoodPayload rest 1
      (by norm_num [socGoodPayload])
      (by norm_num [physCurrent, rawCurrent, i16be, byteAt, List.getD, socGoodPayload, cfgW,
                    CURRENT_ZERO_CONSTANT])
      (by norm_num [physCurrent, rawCurrent, i16be, byteAt, List.getD, socGoodPayload, cfgW,
                    CURRENT_ZERO_CONSTANT])]

/-- Witness for C5: starting at the initial state, four consecutive fully
successful invocations visit cell-range, alarm, per-cell and temperature
reads in that order and return `poll_step` to 0. -/
theorem C5_witness :
    (refresh_data cfgW initState [socGoodPayload, fetPayload, rangePayload]).trace.filter
        isOptionalRead = [ReadKind.cellRange] ∧
    (refresh_data cfgW (refresh_data cfgW initState
        [socGoodPayload, fetPayload, rangePayload]).state
        [socGoodPayload, fetPayload, alarmZeroPayload]).trace.filter isOptionalRead =
      [ReadKind.alarm] ∧
    (refresh_data cfgW (refresh_data cfgW (refresh_data cfgW initState
        [socGoodPayload, fetPayload, rangePayload]).state
        [socGoodPayload, fetPayload, alarmZeroPayload]).state
        [socGoodPayload, fetPayload]).trace.filter isOptionalRead = [ReadKind.cellsVolts] ∧
    (refresh_data cfgW (refresh_data cfgW (refresh_data cfgW (refresh_data cfgW initState
        [socGoodPayload, fetPayload, rangePayload]).state
        [socGoodPayload, fetPayload, alarmZeroPayload]).state
        [socGoodPayload, fetPayload]).state
        [socGoodPayload, fetPayload, tempPayload]).trace.filter isOptionalRead =
      [ReadKind.tempRange] ∧
    (refresh_data cfgW (refresh_data cfgW (refresh_data cfgW (refresh_data cfgW initState
        [socGoodPayload, fetPayload, rangePayload]).state
        [socGoodPayload, fetPayload, alarmZeroPayload]).state
        [socGoodPayload, fetPayload]).state
        [socGoodPayload, fetPayload, tempPayload]).state.poll_step = 0 := by
  have hsoc1 : (read_soc_data cfgW initState
      [socGoodPayload, fetPayload, rangePayload]).result = .ok true := by
    rw [socGood_read]
  have hfed1 : (read_fed_data cfgW
      (read_soc_data cfgW initState [socGoodPayload, fetPayload, rangePayload]).state
      (read_soc_data cfgW initState [socGoodPayload, fetPayload, rangePayload]).bus).result =
      .ok true := by
    rw [socGood_read]
    rfl
  have heq1 := refresh_data_eq_step cfgW initState [socGoodPayload, fetPayload, rangePayload]
    hsoc1 hfed1
  have hpoll1 : ((⟨Except.ok true,
      (read_fed_data cfgW
        (read_soc_data cfgW initState [socGoodPayload, fetPayload, rangePayload]).state
        (read_soc_data cfgW initState [socGoodPayload, fetPayload, rangePayload]).bus).state,
      (read_fed_data cfgW
        (read_soc_data cfgW initState [socGoodPayload, fetPayload, rangePayload]).state
        (read_soc_data cfgW initState [socGoodPayload, fetPayload, rangePayload]).bus).bus,
      [ReadKind.soc] ++ [ReadKind.fet]⟩ : PyResult)).state.poll_step = 0 := by
    show (read_fed_data cfgW _ _).state.poll_step = 0
    rw [read_fed_data_poll_step, read_soc_data_poll_step]
    rfl
  have hopt1 : (read_cell_voltage_range_data cfgW
      (read_fed_data cfgW
        (read_soc_data cfgW initState [socGoodPayload, fetPayload, rangePayload]).state
        (read_soc_data cfgW initState [socGoodPayload, fetPayload, rangePayload]).bus).state
      (read_fed_data cfgW
        (read_soc_data cfgW initState [socGoodPayload, fetPayload, rangePayload]).state
        (read_soc_data cfgW initState [socGoodPayload, fetPayload, rangePayload]).bus).bus).result =
      .ok true := by
    rw [socGood_read]
    rfl
  have result1 : (refresh_data cfgW initState
      [socGoodPayload, fetPayload, rangePayload]).result = .ok true := by
    rw [heq1, refreshStep_result_step0 cfgW _ hpoll1 rfl]
    exact hopt1
  have hS2poll : (refresh_data cfgW initState
      [socGoodPayload, fetPayload, rangePayload]).state.poll_step = 1 := by
    rw [(C5_poll_cycle cfgW).1 initState [socGoodPayload, fetPayload, rangePayload] true
        (by decide) (by decide) result1]
    decide
  have hsoc2 : (read_soc_data cfgW (refresh_data cfgW initState [socGoodPayload, fetPayload, rangePayload]).state [socGoodPayload, fetPayload, alarmZeroPayload]).result = .ok true := by
    rw [socGood_read]
  have hfed2 : (read_fed_data cfgW (read_soc_data cfgW (refresh_data cfgW initState [socGoodPayload, fetPayload, rangePayload]).state [socGoodPayload, fetPayload, alarmZeroPayload]).state (read_soc_data cfgW (refresh_data cfgW initState [socGoodPayload, fetPayload, rangePayload]).state [socGoodPayload, fetPayload, alarmZeroPayload]).bus).result = .ok true := by
    rw [socGood_read]
    rfl
  have heq2 := refresh_data_eq_step cfgW (refresh_data cfgW initState [socGoodPayload, fetPayload, rangePayload]).state [socGoodPayload, fetPayload, alarmZeroPayload] hsoc2 hfed2
  have hpoll2 : ((⟨Except.ok true, (read_fed_data cfgW (read_soc_data cfgW (refresh_data cfgW initState [socGoodPayload, fetPayload, rangePayload]).state [socGoodPayload, fetPayload, alarmZeroPayload]).state (read_soc_data cfgW (refresh_data cfgW initState [socGoodPayload, fetPayload, rangePayload]).state [socGoodPayload, fetPayload, alarmZeroPayload]).bus).state, (read_fed_data cfgW (read_soc_data cfgW (refresh_data cfgW initState [socGoodPayload, fetPayload, rangePayload]).state [socGoodPayload, fetPayload, alarmZeroPayload]).state (read_soc_data cfgW (refresh_data cfgW initState [socGoodPayload, fetPayload, rangePayload]).state [socGoodPayload, fetPayload, alarmZeroPayload]).bus).bus,
      [ReadKind.soc] ++ [ReadKind.fet]⟩ : PyResult)).state.poll_step = 1 := by
    show (read_fed_data cfgW _ _).state.poll_step = 1
    rw [read_fed_data_poll_step, read_soc_data_poll_step]
    exact hS2poll
  have hopt2 : (read_alarm_data cfgW (read_fed_data cfgW (read_soc_data cfgW (refresh_data cfgW initState [socGoodPayload, fetPayload, rangePayload]).state [socGoodPayload, fetPayload, alarmZeroPayload]).state (read_soc_data cfgW (refresh_data cfgW initState [socGoodPayload, fetPayload, rangePayload]).state [socGoodPayload, fetPayload, alarmZeroPayload]).bus).state (read_fed_data cfgW (read_soc_data cfgW (refresh_data cfgW initState [socGoodPayload, fetPayload, rangePayload]).state [socGoodPayload, fetPayload, alarmZeroPayload]).state (read_soc_data cfgW (refresh_data cfgW initState [socGoodPayload, fetPayload, rangePayload]).state [socGoodPayload, fetPayload, alarmZeroPayload]).bus).bus).result = .ok true := by
    rw [socGood_read]
    rfl
  have result2 : (refresh_data cfgW (refresh_data cfgW initState [socGoodPayload, fetPayload, rangePayload]).state [socGoodPayload, fetPayload, alarmZeroPayload]).result = .ok true := by
    rw [heq2, refreshStep_result_step1 cfgW _ hpoll2 rfl]
    exact hopt2
  have hS3poll : (refresh_data cfgW (refresh_data cfgW initState [socGoodPayload, fetPayload, rangePayload]).state [socGoodPayload, fetPayload, alarmZeroPayload]).state.poll_step = 2 := by
    rw [(C5_poll_cycle cfgW).1 (refresh_data cfgW initState [socGoodPayload, fetPayload, rangePayload]).state [socGoodPayload, fetPayload, alarmZeroPayload] true (by rw [hS2poll]; decide) (by rw [hS2poll]; decide)
        result2]
    rw [hS2poll]
    decide
  have hsoc3 : (read_soc_data cfgW (refresh_data cfgW (refresh_data cfgW initState [socGoodPayload, fetPayload, rangePayload]).state [socGoodPayload, fetPayload, alarmZeroPayload]).state [socGoodPayload, fetPayload]).result = .ok true := by
    rw [socGood_read]
  have hfed3 : (read_fed_data cfgW (read_soc_data cfgW (refresh_data cfgW (refresh_data cfgW initState [socGoodPayload, fetPayload, rangePayload]).state [socGoodPayload, fetPayload, alarmZeroPayload]).state [socGoodPayload, fetPayload]).state (read_soc_data cfgW (refresh_data cfgW (refresh_data cfgW initState [socGoodPayload, fetPayload, rangePayload]).state [socGoodPayload, fetPayload, alarmZeroPayload]).state [socGoodPayload, fetPayload]).bus).result = .ok true := by
    rw [socGood_read]
    rfl
  have heq3 := refresh_data_eq_step cfgW (refresh_data cfgW (refresh_data cfgW initState [socGoodPayload, fetPayload, rangePayload]).state [socGoodPayload, fetPayload, alarmZeroPayload]).state [socGoodPayload, fetPayload] hsoc3 hfed3
  have hpoll3 : ((⟨Except.ok true, (read_fed_data cfgW (read_soc_data cfgW (refresh_data cfgW (refresh_data cfgW initState [socGoodPayload, fetPayload, rangePayload]).state [socGoodPayload, fetPayload, alarmZeroPayload]).state [socGoodPayload, fetPayload]).state (read_soc_data cfgW (refresh_data cfgW (refresh_data cfgW initState [socGoodPayload, fetPayload, rangePayload]).state [socGoodPayload, fetPayload, alarmZeroPayload]).state [socGoodPayload, fetPayload]).bus).state, (read_fed_data cfgW (read_soc_data cfgW (refresh_data cfgW (refresh_data cfgW initState [socGoodPayload, fetPayload, rangePayload]).state [socGoodPayload, fetPayload, alarmZeroPayload]).state [socGoodPayload, fetPayload]).state (read_soc_data cfgW (refresh_data cfgW (refresh_data cfgW initState [socGoodPayload, fetPayload, rangePayload]).state [socGoodPayload, fetPayload, alarmZeroPayload]).state [socGoodPayload, fetPayload]).bus).bus,
      [ReadKind.soc] ++ [ReadKind.fet]⟩ : PyResult)).state.poll_step = 2 := by
    show (read_fed_data cfgW _ _).state.poll_step = 2
    rw [read_fed_data_poll_step, read_soc_data_poll_step]
    exact hS3poll
  have hcc3 : (read_fed_data cfgW (read_soc_data cfgW (refresh_data cfgW (refresh_data cfgW initState [socGoodPayload, fetPayload, rangePayload]).state [socGoodPayload, fetPayload, alarmZeroPayload]).state [socGoodPayload, fetPayload]).state (read_soc_data cfgW (refresh_data cfgW (refresh_data cfgW initState [socGoodPayload, fetPayload, rangePayload]).state [socGoodPayload, fetPayload, alarmZeroPayload]).state [socGoodPayload, fetPayload]).bus).state.cell_count = none := by
    rw [read_fed_data_cell_count, read_soc_data_cell_count, refresh_data_cell_count,
        refresh_data_cell_count]
    rfl
  have hopt3 : (read_cells_volts cfgW (read_fed_data cfgW (read_soc_data cfgW (refresh_data cfgW (refresh_data cfgW initState [socGoodPayload, fetPayload, rangePayload]).state [socGoodPayload, fetPayload, alarmZeroPayload]).state [socGoodPayload, fetPayload]).state (read_soc_data cfgW (refresh_data cfgW (refresh_data cfgW initState [socGoodPayload, fetPayload, rangePayload]).state [socGoodPayload, fetPayload, alarmZeroPayload]).state [socGoodPayload, fetPayload]).bus).state (read_fed_data cfgW (read_soc_data cfgW (refresh_data cfgW (refresh_data cfgW initState [socGoodPayload, fetPayload, rangePayload]).state [socGoodPayload, fetPayload, alarmZeroPayload]).state [socGoodPayload, fetPayload]).state (read_soc_data cfgW (refresh_data cfgW (refresh_data cfgW initState [socGoodPayload, fetPayload, rangePayload]).state [socGoodPayload, fetPayload, alarmZeroPayload]).state [socGoodPayload, fetPayload]).bus).bus).result = .ok true := by
    unfold read_cells_volts
    rw [hcc3]
  have result3 : (refresh_data cfgW (refresh_data cfgW (refresh_data cfgW initState [socGoodPayload, fetPayload, rangePayload]).state [socGoodPayload, fetPayload, alarmZeroPayload]).state [socGoodPayload, fetPayload]).result = .ok true := by
    rw [heq3, refreshStep_result_step2 cfgW _ hpoll3 rfl]
    exact hopt3
  have hS4poll : (refresh_data cfgW (refresh_data cfgW (refresh_data cfgW initState [socGoodPayload, fetPayload, rangePayload]).state [socGoodPayload, fetPayload, alarmZeroPayload]).state [socGoodPayload, fetPayload]).state.poll_step = 3 := by
    rw [(C5_poll_cycle cfgW).1 (refresh_data cfgW (refresh_data cfgW initState [socGoodPayload, fetPayload, rangePayload]).state [socGoodPayload, fetPayload, alarmZeroPayload]).state [socGoodPayload, fetPayload] true (by rw [hS3poll]; decide) (by rw [hS3poll]; decide)
        result3]
    rw [hS3poll]
    decide
  have hsoc4 : (read_soc_data cfgW (refresh_data cfgW (refresh_data cfgW (refresh_data cfgW initState [socGoodPayload, fetPayload, rangePayload]).state [socGoodPayload, fetPayload, alarmZeroPayload]).state [socGoodPayload, fetPayload]).state [socGoodPayload, fetPayload, tempPayload]).result = .ok true := by
    rw [socGood_read]
  have hfed4 : (read_fed_data cfgW (read_soc_data cfgW (refresh_data cfgW (refresh_data cfgW (refresh_data cfgW initState [socGoodPayload, fetPayload, rangePayload]).state [socGoodPayload, fetPayload, alarmZeroPayload]).state [socGoodPayload, fetPayload]).state [socGoodPayload, fetPayload, tempPayload]).state (read_soc_data cfgW (refresh_data cfgW (refresh_data cfgW (refresh_data cfgW initState [socGoodPayload, fetPayload, rangePayload]).state [socGoodPayload, fetPayload, alarmZeroPayload]).state [socGoodPayload, fetPayload]).state [socGoodPayload, fetPayload, tempPayload]).bus).result = .ok true := by
    rw [socGood_read]
    rfl
  have heq4 := refresh_data_eq_step cfgW (refresh_data cfgW (refresh_data cfgW (refresh_data cfgW initState [socGoodPayload, fetPayload, rangePayload]).state [socGoodPayload, fetPayload, alarmZeroPayload]).state [socGoodPayload, fetPayload]).state [socGoodPayload, fetPayload, tempPayload] hsoc4 hfed4
  have hpoll4 : ((⟨Except.ok true, (read_fed_data cfgW (read_soc_data cfgW (refresh_data cfgW (refresh_data cfgW (refresh_data cfgW initState [socGoodPayload, fetPayload, rangePayload]).state [socGoodPayload, fetPayload, alarmZeroPayload]).state [socGoodPayload, fetPayload]).state [socGoodPayload, fetPayload, tempPayload]).state (read_soc_data cfgW (refresh_data cfgW (refresh_data cfgW (refresh_data cfgW initState [socGoodPayload, fetPayload, rangePayload]).state [socGoodPayload, fetPayload, alarmZeroPayload]).state [socGoodPayload, fetPayload]).state [socGoodPayload, fetPayload, tempPayload]).bus).state, (read_fed_data cfgW (read_soc_data cfgW (refresh_data cfgW (refresh_data cfgW (refresh_data cfgW initState [socGoodPayload, fetPayload, rangePayload]).state [socGoodPayload, fetPayload, alarmZeroPayload]).state [socGoodPayload, fetPayload]).state [socGoodPayload, fetPayload, tempPayload]).state (read_soc_data cfgW (refresh_data cfgW (refresh_data cfgW (refresh_data cfgW initState [socGoodPayload, fetPayload, rangePayload]).state [socGoodPayload, fetPayload, alarmZeroPayload]).state [socGoodPayload, fetPayload]).state [socGoodPayload, fetPayload, tempPayload]).bus).bus,
      [ReadKind.soc] ++ [ReadKind.fet]⟩ : PyResult)).state.poll_step = 3 := by
    show (read_fed_data cfgW _ _).state.poll_step = 3
    rw [read_fed_data_poll_step, read_soc_data_poll_step]
    exact hS4poll
  have hopt4 : (read_temperature_range_data cfgW (read_fed_data cfgW (read_soc_data cfgW (refresh_data cfgW (refresh_data cfgW (refresh_data cfgW initState [socGoodPayload, fetPayload, rangePayload]).state [socGoodPayload, fetPayload, alarmZeroPayload]).state [socGoodPayload, fetPayload]).state [socGoodPayload, fetPayload, tempPayload]).state (read_soc_data cfgW (refresh_data cfgW (refresh_data cfgW (refresh_data cfgW initState [socGoodPayload, fetPayload, rangePayload]).state [socGoodPayload, fetPayload, alarmZeroPayload]).state [socGoodPayload, fetPayload]).state [socGoodPayload, fetPayload, tempPayload]).bus).state (read_fed_data cfgW (read_soc_data cfgW (refresh_data cfgW (refresh_data cfgW (refresh_data cfgW initState [socGoodPayload, fetPayload, rangePayload]).state [socGoodPayload, fetPayload, alarmZeroPayload]).state [socGoodPayload, fetPayload]).state [socGoodPayload, fetPayload, tempPayload]).state (read_soc_data cfgW (refresh_data cfgW (refresh_data cfgW (refresh_data cfgW initState [socGoodPayload, fetPayload, rangePayload]).state [socGoodPayload, fetPayload, alarmZeroPayload]).state [socGoodPayload, fetPayload]).state [socGoodPayload, fetPayload, tempPayload]).bus).bus).result = .ok true := by
    rw [socGood_read]
    rfl
  have result4 : (refresh_data cfgW (refresh_data cfgW (refresh_data cfgW (refresh_data cfgW initState [socGoodPayload, fetPayload, rangePayload]).state [socGoodPayload, fetPayload, alarmZeroPayload]).state [socGoodPayload, fetPayload]).state [socGoodPayload, fetPayload, tempPayload]).result = .ok true := by
    rw [heq4, refreshStep_result_step3 cfgW _ hpoll4 rfl]
    exact hopt4
  have hS5poll : (refresh_data cfgW (refresh_data cfgW (refresh_data cfgW (refresh_data cfgW initState [socGoodPayload, fetPayload, rangePayload]).state [socGoodPayload, fetPayload, alarmZeroPayload]).state [socGoodPayload, fetPayload]).state [socGoodPayload, fetPayload, tempPayload]).state.poll_step = 0 := by
    rw [(C5_poll_cycle cfgW).1 (refresh_data cfgW (refresh_data cfgW (refresh_data cfgW initState [socGoodPayload, fetPayload, rangePayload]).state [socGoodPayload, fetPayload, alarmZeroPayload]).state [socGoodPayload, fetPayload]).state [socGoodPayload, fetPayload, tempPayload] true (by rw [hS4poll]; decide) (by rw [hS4poll]; decide)
        result4]
    rw [hS4poll]
    decide
  exact (C5_poll_cycle cfgW).2 initState [socGoodPayload, fetPayload, rangePayload] [socGoodPayload, fetPayload, alarmZeroPayload] [socGoodPayload, fetPayload] [socGoodPayload, fetPayload, tempPayload] rfl result1 result2 result3 result4

/-- C7 as stated is false: a frame with frame_index 0 covers no cell
position under the claimed mapping ((0−1)·3+offset is negative), so all
cells of the model should keep their previous values — yet the code
writes the last three cells through Python negative indexing, turning
all three 3.0 V cells to unknown here. -/
theorem C7_counterexample :
    (read_cells_volts cfgW stThreeCells busFrameZero).result = .ok true ∧
    (read_cells_volts cfgW stThreeCells busFrameZero).state.cells = [none, none, none] ∧
    stThreeCells.cells = [some 3, some 3, some 3] ∧
    cellFrames ((busFrameZero.take 6).flatten) = [(0, 0, 0, 0)] := by
  have hloop : cellsLoop 3 (cfgW.MIN_CELL_VOLTAGE / 2) [0, 0, 0, 0, 0, 0, 0, 0]
      [some 3, some 3, some 3] = (.ok (), [none, none, none]) := by
    unfold cellsLoop
    norm_num [pyUnpackFrom, pyCalcsize, fmtCellVolts, fmtItemSize, pyReadVals, i16be, byteAt,
              List.getD, writeFrame, pySetCell, transformCellVoltage, cfgW]
    unfold cellsLoop
    rfl
  refine ⟨?_, ?_, rfl, ?_⟩
  · unfold read_cells_volts
    rw [show stThreeCells.cell_count = some 3 from rfl]
    rw [show read_bus_data_daly busFrameZero 6 =
        some ([0, 0, 0, 0, 0, 0, 0, 0], []) from rfl]
    rw [show stThreeCells.cells = [some 3, some 3, some 3] from rfl]
    norm_num [stThreeCells]
    rw [hloop]
  · unfold read_cells_volts
    rw [show stThreeCells.cell_count = some 3 from rfl]
    rw [show read_bus_data_daly busFrameZero 6 =
        some ([0, 0, 0, 0, 0, 0, 0, 0], []) from rfl]
    rw [show stThreeCells.cells = [some 3, some 3, some 3] from rfl]
    norm_num [stThreeCells]
    rw [hloop]
  · unfold cellFrames
    norm_num [busFrameZero, byteAt, List.getD, i16be]
    unfold cellFrames
    rfl

theorem getD_set_eq_if {α : Type} (l : List α) (i j : Nat) (v d : α) :
    (l.set i v).getD j d = if i = j ∧ j < l.length then v else l.getD j d := by
  by_cases h : i = j ∧ j < l.length
  · obtain ⟨h1, h2⟩ := h
    subst h1
    rw [if_pos ⟨rfl, h2⟩, List.getD_eq_getElem?_getD, List.getElem?_set, if_pos rfl, if_pos h2]
    rfl
  · rw [if_neg h, List.getD_eq_getElem?_getD, List.getD_eq_getElem?_getD, List.getElem?_set]
    by_cases hij : i = j
    · subst hij
      have hl : ¬ i < l.length := fun hl => h ⟨rfl, hl⟩
      rw [if_pos rfl, if_neg hl, List.getElem?_eq_none (le_of_not_lt hl)]
    · rw [if_neg hij]

theorem pySetCell_in_range (cells : List (Option ℚ)) (i : Int) (v : Option ℚ)
    (h0 : 0 ≤ i) (h1 : i < (cells.length : Int)) :
    pySetCell cells i v = .ok (cells.set i.toNat v) := by
  unfold pySetCell
  rw [if_pos ⟨h0, h1⟩]

theorem writeFrame_spec (cc : Int) (lowMin : ℚ) (f c0 c1 c2 : Int) (cells : List (Option ℚ))
    (hf : 1 ≤ f) (hcc : (cells.length : Int) = cc) :
    (writeFrame cc lowMin f c0 c1 c2 cells).1 = .ok () ∧
    (writeFrame cc lowMin f c0 c1 c2 cells).2.length = cells.length ∧
    ∀ j, j < cells.length →
      (writeFrame cc lowMin f c0 c1 c2 cells).2.getD j none =
        (frameWrites cc lowMin (f, c0, c1, c2) j).getD (cells.getD j none) := by
  have hb0 : 0 ≤ (f - 1) * 3 := by omega
  unfold writeFrame
  by_cases hg0 : (f - 1) * 3 ≥ cc
  · rw [if_pos hg0]
    refine ⟨rfl, rfl, ?_⟩
    intro j hj
    have hjc : (j : Int) < cc := by omega
    unfold frameWrites
    dsimp only
    rw [if_neg (by rintro ⟨h1, -⟩; omega), if_neg (by rintro ⟨h1, -⟩; omega),
        if_neg (by rintro ⟨h1, -⟩; omega)]
    rfl
  · rw [if_neg hg0]
    push_neg at hg0
    rw [pySetCell_in_range cells _ _ hb0 (by omega)]
    dsimp only
    by_cases hg1 : (f - 1) * 3 + 1 ≥ cc
    · rw [if_pos hg1]
      refine ⟨rfl, by simp, ?_⟩
      intro j hj
      have hjc : (j : Int) < cc := by omega
      unfold frameWrites
      dsimp only
      rw [getD_set_eq_if]
      split_ifs <;>
        simp only [Option.getD_some, Option.getD_none] <;>
        first | rfl | omega
    · rw [if_neg hg1]
      push_neg at hg1
      rw [pySetCell_in_range _ _ _ (by omega) (by simp only [List.length_set]; omega)]
      dsimp only
      by_cases hg2 : (f - 1) * 3 + 2 ≥ cc
      · rw [if_pos hg2]
        refine ⟨rfl, by simp, ?_⟩
        intro j hj
        have hjc : (j : Int) < cc := by omega
        unfold frameWrites
        dsimp only
        rw [getD_set_eq_if, getD_set_eq_if]
        simp only [List.length_set]
        split_ifs <;>
          simp only [Option.getD_some, Option.getD_none] <;>
          first | rfl | omega
      · rw [if_neg hg2]
        push_neg at hg2
        rw [pySetCell_in_range _ _ _ (by omega)
            (by simp only [List.length_set]; omega)]
        dsimp only
        refine ⟨rfl, by simp, ?_⟩
        intro j hj
        have hjc : (j : Int) < cc := by omega
        unfold frameWrites
        dsimp only
        rw [getD_set_eq_if, getD_set_eq_if, getD_set_eq_if]
        simp only [List.length_set]
        split_ifs <;>
          simp only [Option.getD_some, Option.getD_none] <;>
          first | rfl | omega

theorem cellFrames_nil : cellFrames [] = [] := by
  unfold cellFrames
  rfl

theorem cellFrames_cons (data : List Nat) (h : data ≠ []) :
    cellFrames data =
      ((byteAt data 0 : Int), i16be data 1, i16be data 3, i16be data 5) ::
        cellFrames (data.drop 8) := by
  conv_lhs => unfold cellFrames
  rw [dif_neg h]

theorem cellsLoop_nil (cc : Int) (lowMin : ℚ) (cells : List (Option ℚ)) :
    cellsLoop cc lowMin [] cells = (.ok (), cells) := by
  unfold cellsLoop
  rfl

theorem cellsLoop_cons (cc : Int) (lowMin : ℚ) (data : List Nat) (cells : List (Option ℚ))
    (h : data ≠ []) (frame c0 c1 c2 : Int)
    (hunp : pyUnpackFrom fmtCellVolts data 0 = some [.i frame, .i c0, .i c1, .i c2])
    (cells1 : List (Option ℚ))
    (hwf : writeFrame cc lowMin frame c0 c1 c2 cells = (.ok (), cells1)) :
    cellsLoop cc lowMin data cells = cellsLoop cc lowMin (data.drop 8) cells1 := by
  conv_lhs => unfold cellsLoop
  rw [dif_neg h, hunp]
  dsimp only
  rw [hwf]

theorem cellsLoop_spec (cc : Int) (lowMin : ℚ) :
    ∀ (n : Nat) (data : List Nat) (cells : List (Option ℚ)), data.length = n →
      (cells.length : Int) = cc → data.length % 8 = 0 →
      (∀ fr ∈ cellFrames data, 1 ≤ fr.1) →
      (cellsLoop cc lowMin data cells).1 = .ok () ∧
      (cellsLoop cc lowMin data cells).2.length = cells.length ∧
      (∀ j, j < cells.length →
        (cellsLoop cc lowMin data cells).2.getD j none =
          specCellValue cc lowMin (cellFrames data) j (cells.getD j none)) := by
  intro n
  induction n using Nat.strong_induction_on with
  | _ n ih =>
    intro data cells hn hcc hmod hfr
    by_cases hd : data = []
    · subst hd
      rw [cellsLoop_nil, cellFrames_nil]
      exact ⟨rfl, rfl, fun j hj => rfl⟩
    · have hlen0 : data.length ≠ 0 := fun hz => hd (List.eq_nil_of_length_eq_zero hz)
      have hlen8 : 8 ≤ data.length := by omega
      have hunp := pyUnpackFrom_fmtCellVolts data (by omega)
      have hcf := cellFrames_cons data hd
      have hf1 : 1 ≤ (byteAt data 0 : Int) := by
        have hm := hfr _ (by rw [hcf]; exact List.mem_cons_self _ _)
        simpa using hm
      obtain ⟨hok, hlen, hval⟩ := writeFrame_spec cc lowMin (byteAt data 0 : Int)
        (i16be data 1) (i16be data 3) (i16be data 5) cells hf1 hcc
      rcases hwf : writeFrame cc lowMin (byteAt data 0 : Int)
          (i16be data 1) (i16be data 3) (i16be data 5) cells with ⟨res, cells1⟩
      rw [hwf] at hok hlen hval
      have hres : res = .ok () := hok
      subst hres
      have hrec := cellsLoop_cons cc lowMin data cells hd _ _ _ _ hunp cells1 hwf
      have hcells1 : cells1.length = cells.length := hlen
      have hih := ih (data.drop 8).length (by simp only [List.length_drop]; omega)
        (data.drop 8) cells1 rfl (by rw [hcells1]; exact hcc)
        (by simp only [List.length_drop]; omega)
        (fun fr hm => hfr fr (by rw [hcf]; exact List.mem_cons_of_mem _ hm))
      rw [hrec]
      refine ⟨hih.1, (hih.2.1).trans hcells1, ?_⟩
      intro j hj
      rw [hih.2.2 j (by rw [hcells1]; exact hj)]
      rw [hcf]
      show specCellValue cc lowMin (cellFrames (data.drop 8)) j (cells1.getD j none) =
        specCellValue cc lowMin (cellFrames (data.drop 8)) j
          ((frameWrites cc lowMin ((byteAt data 0 : Int), i16be data 1, i16be data 3, i16be data 5)
            j).getD (cells.getD j none))
      rw [hval j hj]

/-- C7 amended: for every cell-voltage buffer of well-formed 8-byte
frames whose frame indices are at least 1 (the wire protocol is 1-based;
a frame index of 0 instead writes the last three cells through Python
negative indexing, see the counterexample), processed with a known
positive cell_count equal to the length of the cells array: the read
succeeds, the cells array keeps its length, and each cell j holds the
value of the last frame covering j — position (f−1)·3+offset for offset
in {0,1,2}, only when below cell_count — converted from mV to V, with a
voltage strictly below MIN_CELL_VOLTAGE/2 stored as unknown, while cells
not covered by any frame keep their previous value (`specCellValue`). -/
theorem C7_read_cells_volts (cfg : Config) (st : DalyState) (bus : Bus) (cc : Int)
    (hcc : st.cell_count = some cc) (_hpos : 0 < cc)
    (hlen : (st.cells.length : Int) = cc)
    (h6 : 6 ≤ bus.length)
    (hmod : ((bus.take 6).flatten).length % 8 = 0)
    (hframes : ∀ fr ∈ cellFrames ((bus.take 6).flatten), 1 ≤ fr.1) :
    (read_cells_volts cfg st bus).result = .ok true ∧
    (read_cells_volts cfg st bus).state.cells.length = st.cells.length ∧
    ∀ j, j < st.cells.length →
      (read_cells_volts cfg st bus).state.cells.getD j none =
        specCellValue cc (cfg.MIN_CELL_VOLTAGE / 2) (cellFrames ((bus.take 6).flatten)) j
          (st.cells.getD j none) := by
  obtain ⟨hok, hlen2, hval⟩ := cellsLoop_spec cc (cfg.MIN_CELL_VOLTAGE / 2)
    ((bus.take 6).flatten).length ((bus.take 6).flatten) st.cells rfl hlen hmod hframes
  unfold read_cells_volts
  rw [hcc]
  unfold read_bus_data_daly
  rw [if_pos h6]
  dsimp only
  rw [if_neg (not_not_intro hlen)]
  rcases hloop : cellsLoop cc (cfg.MIN_CELL_VOLTAGE / 2) ((bus.take 6).flatten) st.cells with
    ⟨res, cells1⟩
  rw [hloop] at hok hlen2 hval
  have hres : res = .ok () := hok
  subst hres
  exact ⟨rfl, hlen2, hval⟩

/-- Witness for C7 (amended): a single 1-indexed frame writes cells 0–2;
the 100 mV middle reading (below 3.2 V / 2) is stored as unknown while
the 3300 mV readings become 3.3 V. -/
theorem C7_witness :
    (read_cells_volts cfgW stThreeCells busOneFrame).result = .ok true ∧
    (read_cells_volts cfgW stThreeCells busOneFrame).state.cells.getD 0 none = some (33 / 10) ∧
    (read_cells_volts cfgW stThreeCells busOneFrame).state.cells.getD 1 none = none ∧
    (read_cells_volts cfgW stThreeCells busOneFrame).state.cells.getD 2 none = some (33 / 10) := by
  have hcf : cellFrames ((busOneFrame.take 6).flatten) = [(1, 3300, 100, 3300)] := by
    rw [show (busOneFrame.take 6).flatten = [1, 12, 228, 0, 100, 12, 228, 0] from rfl]
    rw [cellFrames_cons _ (by decide)]
    rw [show List.drop 8 [1, 12, 228, 0, 100, 12, 228, 0] = ([] : List Nat) from rfl,
        cellFrames_nil]
    norm_num [byteAt, List.getD, i16be]
  obtain ⟨h1, h2, h3⟩ := C7_read_cells_volts cfgW stThreeCells busOneFrame 3 rfl (by decide) rfl
    (by decide) (by decide)
    (by rw [hcf]; decide)
  refine ⟨h1, ?_, ?_, ?_⟩
  · rw [h3 0 (by decide), hcf]
    norm_num [specCellValue, frameWrites, transformCellVoltage, stThreeCells, cfgW]
  · rw [h3 1 (by decide), hcf]
    norm_num [specCellValue, frameWrites, transformCellVoltage, stThreeCells, cfgW]
  · rw [h3 2 (by decide), hcf]
    norm_num [specCellValue, frameWrites, transformCellVoltage, stThreeCells, cfgW]
